import Mathlib

/-!
Kubelet `/stats/summary` grouping and identity derivation.

A shallow embedding of `src/kubelet/metric/metric.go`:

* the extractors `fetchNodeStats`, `fetchPodStats`, `fetchContainerStats`,
* the grouper `GroupStatsSummary`,
* the generators `FromRawGroupsEntityIDGenerator`,
  `FromRawEntityIDGroupEntityIDGenerator`, `FromRawGroupsEntityTypeGenerator`,
* the helper `AddUint64RawMetric`.

Conventions of the embedding.

* A Go `map[string]V` is a function `String → Option V`: a lookup `v, ok := m[k]`
  is `m k` (`none` when `ok` is false), an assignment `m[k] = v` is `GoMap.set`.
  A nil map and an empty map read the same, as in Go.
* A Go `*uint64` is an `Option Nat`; a section pointer is an `Option` of the
  section. `uint64` addition is taken modulo `2 ^ 64`.
* A slice that may be nil is an `Option (List _)`: `none` is the nil slice and
  `some []` the empty, non-nil one.
* A Go `(value, error)` result is a tuple whose last component is an
  `Option Error`, `none` being the nil error.
-/

namespace Metric

/-! ## Data model -/

/-- Modelled from the spec: the dynamic values a raw metrics container holds
(package `definition` is not part of the sources). The spec names unsigned
64-bit integers and strings; `nil` is the zero value of a Go `interface{}`,
which is what reading a missing key yields. -/
inductive Value where
  | uint (n : Nat)
  | str (s : String)
  | nil
  deriving DecidableEq, Repr

/-- A Go map with string keys. -/
def GoMap (V : Type) : Type := String → Option V

namespace GoMap

/-- The empty map, `make(map[string]V)` or the literal `{}`. -/
def empty {V : Type} : GoMap V := fun _ => none

/-- The assignment `m[k] = v`. -/
def set {V : Type} (m : GoMap V) (k : String) (v : V) : GoMap V :=
  fun k2 => if k2 = k then some v else m k2

end GoMap

/-- Modelled from the spec: `definition.RawMetrics`, field name to value. -/
abbrev RawMetrics : Type := GoMap Value

/-- Modelled from the spec: `definition.RawGroups`, group label to entity key to
raw metrics. -/
abbrev RawGroups : Type := GoMap (GoMap RawMetrics)

/-- The one-value read `m[k]` of a raw metrics container: the zero value
(nil interface) when the key is missing. -/
def GoMap.get (r : GoMap Value) (k : String) : Value :=
  match r k with
  | some v => v
  | none => Value.nil

/-- The chained read `g[groupLabel][rawEntityID][key]` with its `ok` flag:
reading through a missing (nil) inner map finds nothing. -/
def RawGroups.field (g : RawGroups) (groupLabel rawEntityID key : String) : Option Value :=
  match g groupLabel with
  | none => none
  | some gl =>
    match gl rawEntityID with
    | none => none
    | some en => en key

/-- The statement `g[label][id] = m`: the group map stored under `label` is
updated in place. The grouper only runs it on the three groups its store is
seeded with. -/
def RawGroups.setEntity (g : RawGroups) (label id : String) (m : RawMetrics) : RawGroups :=
  fun l => if l = label then (g l).map (fun grp => grp.set id m) else g l

/-- The errors built by `fmt.Errorf` in the file, one constructor per call
site shape, carrying the formatted arguments. -/
inductive Error where
  /-- "empty node identifier, possible data error in /stats/summary response" -/
  | emptyNodeIdentifier
  /-- "empty pod identifier, possible data error in /stats/summary response" -/
  | emptyPodIdentifier
  /-- "empty container identifier, possible data error in /stats/summary response" -/
  | emptyContainerIdentifier
  /-- "pods data not found, possible data error in /stats/summary response" -/
  | podsDataNotFound
  /-- "containers data not found, possible data error in /stats/summary response" -/
  | containersDataNotFound
  /-- "%q not found for %q" -/
  | notFoundFor (key groupLabel : String)
  /-- "incorrect type of %q for %q" -/
  | incorrectTypeFor (key groupLabel : String)
  /-- "generated entity ID is empty, skipping it" -/
  | emptyGeneratedID
  /-- "%q not found" -/
  | groupNotFound (groupLabel : String)
  /-- "no entityID %q found for %q" -/
  | noEntityIDFound (rawEntityID groupLabel : String)
  deriving DecidableEq, Repr

/-! ## The decoded snapshot tree (`v1alpha1`), restricted to the fields read -/

structure CPUStats where
  UsageNanoCores : Option Nat
  UsageCoreNanoSeconds : Option Nat
  deriving DecidableEq, Repr

structure MemoryStats where
  UsageBytes : Option Nat
  AvailableBytes : Option Nat
  WorkingSetBytes : Option Nat
  RSSBytes : Option Nat
  PageFaults : Option Nat
  MajorPageFaults : Option Nat
  deriving DecidableEq, Repr

structure NetworkStats where
  RxBytes : Option Nat
  TxBytes : Option Nat
  RxErrors : Option Nat
  TxErrors : Option Nat
  deriving DecidableEq, Repr

structure FsStats where
  AvailableBytes : Option Nat
  CapacityBytes : Option Nat
  UsedBytes : Option Nat
  InodesFree : Option Nat
  Inodes : Option Nat
  InodesUsed : Option Nat
  deriving DecidableEq, Repr

structure RuntimeStats where
  ImageFs : Option FsStats
  deriving DecidableEq, Repr

structure NodeStats where
  NodeName : String
  CPU : Option CPUStats
  Memory : Option MemoryStats
  Network : Option NetworkStats
  Fs : Option FsStats
  Runtime : Option RuntimeStats
  deriving DecidableEq, Repr

structure PodReference where
  Name : String
  Namespace : String
  deriving DecidableEq, Repr

structure ContainerStats where
  Name : String
  CPU : Option CPUStats
  Memory : Option MemoryStats
  deriving DecidableEq, Repr

structure PodStats where
  PodRef : PodReference
  Network : Option NetworkStats
  Containers : Option (List ContainerStats)
  deriving DecidableEq, Repr

structure Summary where
  Node : NodeStats
  Pods : Option (List PodStats)
  deriving DecidableEq, Repr

/-! ## Formatting and string helpers -/

/-- The verb `%s` of `fmt.Sprintf` applied to a dynamic value: a string is
printed as is, the other kinds as the bad-verb forms of package `fmt`. -/
def fmtS : Value → String
  | Value.str s => s
  | Value.uint n => "%!s(uint64=" ++ toString n ++ ")"
  | Value.nil => "%!s(<nil>)"

/-- The Go function `strings.TrimPrefix(s, pre)`: `s` without the leading `pre`
when it starts with it, `s` itself otherwise. -/
def TrimPrefix (s pre : String) : String :=
  if pre.data.isPrefixOf s.data then String.mk (s.data.drop pre.data.length) else s

/-- Addition of two `uint64` values. -/
def addUint64 (a b : Nat) : Nat := (a + b) % 2 ^ 64

/-! ## `AddUint64RawMetric` and the extractors -/

/-- AddUint64RawMetric adds a new metric to a RawMetrics if it exists. -/
def AddUint64RawMetric (r : RawMetrics) (name : String) (valuePtr : Option Nat) : RawMetrics :=
  match valuePtr with
  | some v => r.set name (Value.uint v)
  | none => r

/-- The block `if n.CPU != nil { ... }` of `fetchNodeStats`. -/
def nodeCPU (r : RawMetrics) (c : Option CPUStats) : RawMetrics :=
  match c with
  | none => r
  | some cpu =>
    let r := AddUint64RawMetric r "usageNanoCores" cpu.UsageNanoCores
    AddUint64RawMetric r "usageCoreNanoSeconds" cpu.UsageCoreNanoSeconds

/-- The block `if n.Memory != nil { ... }` of `fetchNodeStats`. -/
def nodeMemory (r : RawMetrics) (m : Option MemoryStats) : RawMetrics :=
  match m with
  | none => r
  | some mem =>
    let r := AddUint64RawMetric r "memoryUsageBytes" mem.UsageBytes
    let r := AddUint64RawMetric r "memoryAvailableBytes" mem.AvailableBytes
    let r := AddUint64RawMetric r "memoryWorkingSetBytes" mem.WorkingSetBytes
    let r := AddUint64RawMetric r "memoryRssBytes" mem.RSSBytes
    let r := AddUint64RawMetric r "memoryPageFaults" mem.PageFaults
    AddUint64RawMetric r "memoryMajorPageFaults" mem.MajorPageFaults

/-- The block `if x.Network != nil { ... }`, the same in `fetchNodeStats` and
`fetchPodStats`: the two byte counters, then `"errors"` when both error
counters are there. -/
def network (r : RawMetrics) (n : Option NetworkStats) : RawMetrics :=
  match n with
  | none => r
  | some net =>
    let r := AddUint64RawMetric r "rxBytes" net.RxBytes
    let r := AddUint64RawMetric r "txBytes" net.TxBytes
    match net.RxErrors, net.TxErrors with
    | some rx, some tx => r.set "errors" (Value.uint (addUint64 rx tx))
    | _, _ => r

/-- The block `if n.Fs != nil { ... }` of `fetchNodeStats`. -/
def nodeFs (r : RawMetrics) (f : Option FsStats) : RawMetrics :=
  match f with
  | none => r
  | some fs =>
    let r := AddUint64RawMetric r "fsAvailableBytes" fs.AvailableBytes
    let r := AddUint64RawMetric r "fsCapacityBytes" fs.CapacityBytes
    let r := AddUint64RawMetric r "fsUsedBytes" fs.UsedBytes
    let r := AddUint64RawMetric r "fsInodesFree" fs.InodesFree
    let r := AddUint64RawMetric r "fsInodes" fs.Inodes
    AddUint64RawMetric r "fsInodesUsed" fs.InodesUsed

/-- The image filesystem reached by `n.Runtime != nil && n.Runtime.ImageFs != nil`. -/
def imageFs (rt : Option RuntimeStats) : Option FsStats :=
  match rt with
  | none => none
  | some r => r.ImageFs

/-- The block `if n.Runtime != nil && n.Runtime.ImageFs != nil { ... }`. -/
def nodeRuntime (r : RawMetrics) (rt : Option RuntimeStats) : RawMetrics :=
  match imageFs rt with
  | none => r
  | some fs =>
    let r := AddUint64RawMetric r "runtimeAvailableBytes" fs.AvailableBytes
    let r := AddUint64RawMetric r "runtimeCapacityBytes" fs.CapacityBytes
    let r := AddUint64RawMetric r "runtimeUsedBytes" fs.UsedBytes
    let r := AddUint64RawMetric r "runtimeInodesFree" fs.InodesFree
    let r := AddUint64RawMetric r "runtimeInodes" fs.Inodes
    AddUint64RawMetric r "runtimeInodesUsed" fs.InodesUsed

/-- The node extractor: raw metrics, raw entity key, error. -/
def fetchNodeStats (n : NodeStats) : RawMetrics × String × Option Error :=
  let r : RawMetrics := GoMap.empty
  let nodeName := n.NodeName
  if nodeName = "" then
    (r, "", some Error.emptyNodeIdentifier)
  else
    let r := r.set "nodeName" (Value.str nodeName)
    let r := nodeCPU r n.CPU
    let r := nodeMemory r n.Memory
    let r := network r n.Network
    let r := nodeFs r n.Fs
    let r := nodeRuntime r n.Runtime
    (r, nodeName, none)

/-- The pod extractor: raw metrics, raw entity key, error. -/
def fetchPodStats (pod : PodStats) : RawMetrics × String × Option Error :=
  let r : RawMetrics := GoMap.empty
  if pod.PodRef.Name = "" ∨ pod.PodRef.Namespace = "" then
    (r, "", some Error.emptyPodIdentifier)
  else
    let r := r.set "podName" (Value.str pod.PodRef.Name)
    let r := r.set "namespace" (Value.str pod.PodRef.Namespace)
    let r := network r pod.Network
    let rawEntityID := fmtS (r.get "namespace") ++ "_" ++ fmtS (r.get "podName")
    (r, rawEntityID, none)

/-- The container extractor: raw metrics, error. -/
def fetchContainerStats (c : ContainerStats) : RawMetrics × Option Error :=
  let r : RawMetrics := GoMap.empty
  if c.Name = "" then
    (r, some Error.emptyContainerIdentifier)
  else
    let r := r.set "containerName" (Value.str c.Name)
    let r := match c.CPU with
      | some cpu => AddUint64RawMetric r "usageNanoCores" cpu.UsageNanoCores
      | none => r
    let r := match c.Memory with
      | some mem => AddUint64RawMetric r "usageBytes" mem.UsageBytes
      | none => r
    (r, none)

/-! ## The grouper -/

/-- One pass of `ContainerListLoop` for the pod whose metrics are
`rawPodMetrics`, on the store and the error list built so far. -/
def containerStep (rawPodMetrics : RawMetrics) (st : RawGroups × List Error)
    (container : ContainerStats) : RawGroups × List Error :=
  match fetchContainerStats container with
  | (_, some err) => (st.1, st.2 ++ [err])
  | (rawContainerMetrics, none) =>
    let rawContainerMetrics := rawContainerMetrics.set "podName" (rawPodMetrics.get "podName")
    let rawContainerMetrics := rawContainerMetrics.set "namespace" (rawPodMetrics.get "namespace")
    let rawEntityID := fmtS (rawPodMetrics.get "namespace") ++ "_" ++
      fmtS (rawPodMetrics.get "podName") ++ "_" ++ fmtS (rawContainerMetrics.get "containerName")
    (st.1.setEntity "container" rawEntityID rawContainerMetrics, st.2)

/-- One pass of `PodListLoop` on the store and the error list built so far. -/
def podStep (st : RawGroups × List Error) (pod : PodStats) : RawGroups × List Error :=
  match fetchPodStats pod with
  | (_, _, some err) => (st.1, st.2 ++ [err])
  | (rawPodMetrics, rawEntityID, none) =>
    let g := st.1.setEntity "pod" rawEntityID rawPodMetrics
    match pod.Containers with
    | none => (g, st.2 ++ [Error.containersDataNotFound])
    | some containers => containers.foldl (containerStep rawPodMetrics) (g, st.2)

/-- The store `g` as first built: the three groups, each empty. -/
def initGroups : RawGroups :=
  ((GoMap.empty.set "pod" GoMap.empty).set "container" GoMap.empty).set "node" GoMap.empty

/-- The node part of `GroupStatsSummary`, lines 149 to 154. -/
def nodeStep (st : RawGroups × List Error) (n : NodeStats) : RawGroups × List Error :=
  match fetchNodeStats n with
  | (_, _, some err) => (st.1, st.2 ++ [err])
  | (rawNodeData, rawEntityID, none) => (st.1.setEntity "node" rawEntityID rawNodeData, st.2)

/-- GroupStatsSummary groups specific data for pods, containers and node. -/
def GroupStatsSummary (statsSummary : Summary) : RawGroups × List Error :=
  let st := nodeStep (initGroups, []) statsSummary.Node
  match statsSummary.Pods with
  | none => (st.1, st.2 ++ [Error.podsDataNotFound])
  | some pods => pods.foldl podStep st

/-! ## Identity derivation -/

/-- FromRawGroupsEntityIDGenerator generates an entityID from the pod name from
kubelet. -/
def FromRawGroupsEntityIDGenerator (key : String)
    (groupLabel rawEntityID : String) (g : RawGroups) : String × Option Error :=
  match g.field groupLabel rawEntityID key with
  | none => ("", some (Error.notFoundFor key groupLabel))
  | some (Value.str val) => (val, none)
  | some _ => ("", some (Error.incorrectTypeFor key groupLabel))

/-- FromRawEntityIDGroupEntityIDGenerator generates an entityID from the raw
entity ID which is composed of namespace and pod name. -/
def FromRawEntityIDGroupEntityIDGenerator (key : String)
    (groupLabel rawEntityID : String) (g : RawGroups) : String × Option Error :=
  match g.field groupLabel rawEntityID key with
  | none => ("", some (Error.notFoundFor key groupLabel))
  | some toRemove =>
    let v := TrimPrefix rawEntityID (fmtS toRemove ++ "_")
    if v = "" then ("", some Error.emptyGeneratedID) else (v, none)

/-- FromRawGroupsEntityTypeGenerator generates the entity type using the value
of the specified raw data key. -/
def FromRawGroupsEntityTypeGenerator (key defaultValue : String)
    (groupLabel rawEntityID : String) (groups : RawGroups) (clusterName : String) :
    String × Option Error :=
  if groupLabel = "namespace" ∨ groupLabel = "node" then
    ("k8s:" ++ clusterName ++ ":" ++ groupLabel, none)
  else
    let actualGroupLabel := if groupLabel = "container" then "pod" else groupLabel
    match groups groupLabel with
    | none =>
      ("k8s:" ++ clusterName ++ ":" ++ defaultValue ++ ":" ++ actualGroupLabel,
        some (Error.groupNotFound groupLabel))
    | some gl =>
      match gl rawEntityID with
      | none =>
        ("k8s:" ++ clusterName ++ ":" ++ defaultValue ++ ":" ++ actualGroupLabel,
          some (Error.noEntityIDFound rawEntityID groupLabel))
      | some en =>
        match en key with
        | none =>
          ("k8s:" ++ clusterName ++ ":" ++ defaultValue ++ ":" ++ actualGroupLabel,
            some (Error.notFoundFor key groupLabel))
        | some (Value.str v) =>
          ("k8s:" ++ clusterName ++ ":" ++ v ++ ":" ++ actualGroupLabel, none)
        | some _ =>
          ("k8s:" ++ clusterName ++ ":" ++ defaultValue ++ ":" ++ actualGroupLabel,
            some (Error.incorrectTypeFor key groupLabel))

/-! ## Concrete inputs used below -/

/-- A store whose only group is "pod", holding one pod entry. -/
def storePodOnly : RawGroups :=
  GoMap.empty.set "pod"
    (GoMap.empty.set "ns_p" ((GoMap.empty.set "podName" (Value.str "p")).set "namespace" (Value.str "ns")))

/-! ## Definitions used in the statements and proofs -/

/-- The category label written in the type string: "pod" for the group label
"container", the group label itself otherwise. -/
def categoryLabel (groupLabel : String) : String :=
  if groupLabel = "container" then "pod" else groupLabel

/-- What a conditional copy leaves under its destination key: the source value
as an unsigned integer when the pointer is set, the older content otherwise. -/
def copied (src : Option Nat) (old : Option Value) : Option Value :=
  match src with
  | some v => some (Value.uint v)
  | none => old

/-- The value of the derived field "errors" of a network section, when it is
written: both error counters are needed. -/
def errorsOf (n : Option NetworkStats) : Option Nat :=
  match n with
  | none => none
  | some net =>
    match net.RxErrors, net.TxErrors with
    | some rx, some tx => some (addUint64 rx tx)
    | _, _ => none

/-- The 22 optional numeric fields copied by `fetchNodeStats`: destination key
and source value, which is there when its pointer and the pointers of the
sections around it are all set. -/
def nodeNumericFields : List (String × (NodeStats → Option Nat)) :=
  [ ("usageNanoCores", fun n => n.CPU.bind (fun x => x.UsageNanoCores)),
    ("usageCoreNanoSeconds", fun n => n.CPU.bind (fun x => x.UsageCoreNanoSeconds)),
    ("memoryUsageBytes", fun n => n.Memory.bind (fun x => x.UsageBytes)),
    ("memoryAvailableBytes", fun n => n.Memory.bind (fun x => x.AvailableBytes)),
    ("memoryWorkingSetBytes", fun n => n.Memory.bind (fun x => x.WorkingSetBytes)),
    ("memoryRssBytes", fun n => n.Memory.bind (fun x => x.RSSBytes)),
    ("memoryPageFaults", fun n => n.Memory.bind (fun x => x.PageFaults)),
    ("memoryMajorPageFaults", fun n => n.Memory.bind (fun x => x.MajorPageFaults)),
    ("rxBytes", fun n => n.Network.bind (fun x => x.RxBytes)),
    ("txBytes", fun n => n.Network.bind (fun x => x.TxBytes)),
    ("fsAvailableBytes", fun n => n.Fs.bind (fun x => x.AvailableBytes)),
    ("fsCapacityBytes", fun n => n.Fs.bind (fun x => x.CapacityBytes)),
    ("fsUsedBytes", fun n => n.Fs.bind (fun x => x.UsedBytes)),
    ("fsInodesFree", fun n => n.Fs.bind (fun x => x.InodesFree)),
    ("fsInodes", fun n => n.Fs.bind (fun x => x.Inodes)),
    ("fsInodesUsed", fun n => n.Fs.bind (fun x => x.InodesUsed)),
    ("runtimeAvailableBytes",
      fun n => n.Runtime.bind (fun rt => rt.ImageFs.bind (fun x => x.AvailableBytes))),
    ("runtimeCapacityBytes",
      fun n => n.Runtime.bind (fun rt => rt.ImageFs.bind (fun x => x.CapacityBytes))),
    ("runtimeUsedBytes",
      fun n => n.Runtime.bind (fun rt => rt.ImageFs.bind (fun x => x.UsedBytes))),
    ("runtimeInodesFree",
      fun n => n.Runtime.bind (fun rt => rt.ImageFs.bind (fun x => x.InodesFree))),
    ("runtimeInodes",
      fun n => n.Runtime.bind (fun rt => rt.ImageFs.bind (fun x => x.Inodes))),
    ("runtimeInodesUsed",
      fun n => n.Runtime.bind (fun rt => rt.ImageFs.bind (fun x => x.InodesUsed))) ]

/-- The two optional numeric fields copied by `fetchPodStats`. -/
def podNumericFields : List (String × (PodStats → Option Nat)) :=
  [ ("rxBytes", fun p => p.Network.bind (fun x => x.RxBytes)),
    ("txBytes", fun p => p.Network.bind (fun x => x.TxBytes)) ]

/-- The two optional numeric fields copied by `fetchContainerStats`. -/
def containerNumericFields : List (String × (ContainerStats → Option Nat)) :=
  [ ("usageNanoCores", fun c => c.CPU.bind (fun x => x.UsageNanoCores)),
    ("usageBytes", fun c => c.Memory.bind (fun x => x.UsageBytes)) ]

/-- A node record with a name, every section present, some counters absent. -/
def nodeSample : NodeStats :=
  { NodeName := "node-1"
    CPU := some { UsageNanoCores := some 7, UsageCoreNanoSeconds := none }
    Memory := none
    Network := some { RxBytes := some 10, TxBytes := none, RxErrors := some 2, TxErrors := some 3 }
    Fs := some { AvailableBytes := some 1, CapacityBytes := some 2, UsedBytes := none,
                 InodesFree := none, Inodes := some 5, InodesUsed := none }
    Runtime := some { ImageFs := none } }

/-- A pod record with name and namespace, one named container and one without
a name. -/
def podSample : PodStats :=
  { PodRef := { Name := "p", Namespace := "ns" }
    Network := some { RxBytes := none, TxBytes := some 4, RxErrors := some 1, TxErrors := none }
    Containers := some
      [ { Name := "c", CPU := some { UsageNanoCores := some 9, UsageCoreNanoSeconds := none },
          Memory := none },
        { Name := "", CPU := none, Memory := none } ] }

/-- A container record with a name. -/
def containerSample : ContainerStats :=
  { Name := "c", CPU := some { UsageNanoCores := some 9, UsageCoreNanoSeconds := none },
    Memory := none }

/-- A node record whose two error counters add up to `2 ^ 64`. -/
def nodeOverflow : NodeStats :=
  { NodeName := "node-1", CPU := none, Memory := none,
    Network := some { RxBytes := none, TxBytes := none,
                      RxErrors := some 18446744073709551615, TxErrors := some 1 },
    Fs := none, Runtime := none }

/-- A pod record with both error counters. -/
def podWithErrors : PodStats :=
  { PodRef := { Name := "p", Namespace := "ns" }
    Network := some { RxBytes := none, TxBytes := none, RxErrors := some 4, TxErrors := some 5 }
    Containers := some [] }

/-- The raw entity key of a pod, "<namespace>_<podName>". -/
def podKey (p : PodStats) : String := p.PodRef.Namespace ++ "_" ++ p.PodRef.Name

/-- The raw entity key of a container of a pod,
"<namespace>_<podName>_<containerName>". -/
def containerKey (p : PodStats) (c : ContainerStats) : String :=
  p.PodRef.Namespace ++ "_" ++ p.PodRef.Name ++ "_" ++ c.Name

/-- A list of assignments `m[k] = v` run in order on a map. -/
def applyWrites {V : Type} (m : GoMap V) (ws : List (String × V)) : GoMap V :=
  ws.foldl (fun acc w => acc.set w.1 w.2) m

/-- A list of assignments `g[label][k] = v` run in order on a store. -/
def writeGroup (g : RawGroups) (label : String) (ws : List (String × RawMetrics)) : RawGroups :=
  fun l => if l = label then (g l).map (fun grp => applyWrites grp ws) else g l

/-- The entry `ContainerListLoop` stores for a container that was extracted:
raw entity key and metrics. -/
def containerEntry (rawPodMetrics : RawMetrics) (c : ContainerStats) : String × RawMetrics :=
  let m := ((fetchContainerStats c).1.set "podName" (rawPodMetrics.get "podName")).set
    "namespace" (rawPodMetrics.get "namespace")
  (fmtS (rawPodMetrics.get "namespace") ++ "_" ++ fmtS (rawPodMetrics.get "podName") ++ "_" ++
    fmtS (m.get "containerName"), m)

/-- The entries `ContainerListLoop` stores for a container list, in order. -/
def containerWrites (rawPodMetrics : RawMetrics) :
    List ContainerStats → List (String × RawMetrics)
  | [] => []
  | c :: cs =>
    match (fetchContainerStats c).2 with
    | some _ => containerWrites rawPodMetrics cs
    | none => containerEntry rawPodMetrics c :: containerWrites rawPodMetrics cs

/-- The errors `ContainerListLoop` records for a container list, in order. -/
def containerErrors : List ContainerStats → List Error
  | [] => []
  | c :: cs =>
    match (fetchContainerStats c).2 with
    | some err => err :: containerErrors cs
    | none => containerErrors cs

/-- The entries `PodListLoop` stores in the group "pod", in order. -/
def podWrites : List PodStats → List (String × RawMetrics)
  | [] => []
  | p :: ps =>
    match (fetchPodStats p).2.2 with
    | some _ => podWrites ps
    | none => ((fetchPodStats p).2.1, (fetchPodStats p).1) :: podWrites ps

/-- The entries `PodListLoop` stores in the group "container", in order. -/
def allContainerWrites : List PodStats → List (String × RawMetrics)
  | [] => []
  | p :: ps =>
    match (fetchPodStats p).2.2, p.Containers with
    | none, some cs => containerWrites (fetchPodStats p).1 cs ++ allContainerWrites ps
    | _, _ => allContainerWrites ps

/-- The errors `PodListLoop` records, in order. -/
def podErrors : List PodStats → List Error
  | [] => []
  | p :: ps =>
    match (fetchPodStats p).2.2, p.Containers with
    | some err, _ => err :: podErrors ps
    | none, none => Error.containersDataNotFound :: podErrors ps
    | none, some cs => containerErrors cs ++ podErrors ps

/-- The store and the errors after the node part of `GroupStatsSummary`. -/
def nodeWrites (n : NodeStats) : List (String × RawMetrics) :=
  match (fetchNodeStats n).2.2 with
  | some _ => []
  | none => [((fetchNodeStats n).2.1, (fetchNodeStats n).1)]

/-- The errors recorded by the node part of `GroupStatsSummary`. -/
def nodeErrors (n : NodeStats) : List Error :=
  match (fetchNodeStats n).2.2 with
  | some err => [err]
  | none => []

/-- A pod with namespace "a_b" and name "c": raw key "a_b_c". -/
def podClashFirst : PodStats :=
  { PodRef := { Name := "c", Namespace := "a_b" }, Network := none, Containers := some [] }

/-- A pod with namespace "a" and name "b_c": raw key "a_b_c" again. -/
def podClashSecond : PodStats :=
  { PodRef := { Name := "b_c", Namespace := "a" }, Network := none, Containers := some [] }

/-- A summary with two pods whose raw keys are both "a_b_c": `podClashFirst`,
then namespace "a" with name "b_c". -/
def summaryPodClash : Summary :=
  { Node := nodeSample
    Pods := some [podClashFirst, podClashSecond] }

/-- A container named "d". -/
def containerClashFirst : ContainerStats := { Name := "d", CPU := none, Memory := none }

/-- A pod with namespace "a" and name "b_c" holding the container "d": the raw
key of the container is "a_b_c_d". -/
def containerClashPod : PodStats :=
  { PodRef := { Name := "b_c", Namespace := "a" }, Network := none,
    Containers := some [containerClashFirst] }

/-- A container named "c_d". -/
def containerClashSecond : ContainerStats := { Name := "c_d", CPU := none, Memory := none }

/-- A pod with namespace "a" and name "b" holding the container "c_d": the raw
key of the container is "a_b_c_d" again. -/
def containerClashSecondPod : PodStats :=
  { PodRef := { Name := "b", Namespace := "a" }, Network := none,
    Containers := some [containerClashSecond] }

/-- A summary with two pods of namespace "a" whose containers both have the raw
key "a_b_c_d": `containerClashPod`, then `containerClashSecondPod`. -/
def summaryContainerClash : Summary :=
  { Node := nodeSample
    Pods := some [containerClashPod, containerClashSecondPod] }

/-- A summary with the sample node and the sample pod. -/
def summarySample : Summary :=
  { Node := nodeSample, Pods := some [podSample] }

/-- A summary with the sample node and one pod whose name is empty and whose
container list is nil. -/
def summaryEmptyPodName : Summary :=
  { Node := nodeSample
    Pods := some
      [ { PodRef := { Name := "", Namespace := "ns" }, Network := none, Containers := none } ] }

/-- A pod record with name and namespace and one named container. -/
def podClean : PodStats :=
  { PodRef := { Name := "p", Namespace := "ns" }, Network := none,
    Containers := some [containerSample] }

/-- A pod record without a namespace, holding a named container. -/
def podMalformed : PodStats :=
  { PodRef := { Name := "q", Namespace := "" }, Network := none,
    Containers := some [containerSample] }

/-- The store has an entry in the group `label` under the entity key `k`. -/
def hasKey (g : RawGroups) (label k : String) : Prop :=
  ∃ grp m, g label = some grp ∧ grp k = some m

/-- The identifying fields of a pod record: name, namespace and, when the
container list is there, the names of the containers in order. -/
def podSkeleton (p : PodStats) : String × String × Option (List String) :=
  (p.PodRef.Name, p.PodRef.Namespace, p.Containers.map (fun cs => cs.map (fun c => c.Name)))

/-- The identifying fields of a summary: the node name and, when the pod list is
there, the identifying fields of the pods in order. Every numeric metric and
every optional section is left out. -/
def summarySkeleton (s : Summary) : String × Option (List (String × String × Option (List String))) :=
  (s.Node.NodeName, s.Pods.map (fun ps => ps.map podSkeleton))

/-- The raw keys written in the group "pod", from the identifying fields. -/
def podKeysOfSkeleton : List (String × String × Option (List String)) → List String
  | [] => []
  | sk :: rest =>
    if sk.1 = "" ∨ sk.2.1 = "" then podKeysOfSkeleton rest
    else (sk.2.1 ++ "_" ++ sk.1) :: podKeysOfSkeleton rest

/-- The raw keys written for the containers of one pod, from their names. -/
def containerKeysOfNames (ns name : String) : List String → List String
  | [] => []
  | n :: rest =>
    if n = "" then containerKeysOfNames ns name rest
    else (ns ++ "_" ++ name ++ "_" ++ n) :: containerKeysOfNames ns name rest

/-- The raw keys written in the group "container", from the identifying
fields. -/
def containerKeysOfSkeleton : List (String × String × Option (List String)) → List String
  | [] => []
  | sk :: rest =>
    if sk.1 = "" ∨ sk.2.1 = "" then containerKeysOfSkeleton rest
    else
      match sk.2.2 with
      | none => containerKeysOfSkeleton rest
      | some names => containerKeysOfNames sk.2.1 sk.1 names ++ containerKeysOfSkeleton rest

/-- The errors recorded for the containers of one pod, from their names. -/
def containerErrorsOfNames : List String → List Error
  | [] => []
  | n :: rest =>
    if n = "" then Error.emptyContainerIdentifier :: containerErrorsOfNames rest
    else containerErrorsOfNames rest

/-- The errors recorded by the pod loop, from the identifying fields. -/
def podErrorsOfSkeleton : List (String × String × Option (List String)) → List Error
  | [] => []
  | sk :: rest =>
    if sk.1 = "" ∨ sk.2.1 = "" then Error.emptyPodIdentifier :: podErrorsOfSkeleton rest
    else
      match sk.2.2 with
      | none => Error.containersDataNotFound :: podErrorsOfSkeleton rest
      | some names => containerErrorsOfNames names ++ podErrorsOfSkeleton rest

/-- The number of errors the spec gives for a pod list: the pods with an empty
name or namespace, plus the valid pods whose container list is nil, plus the
containers with an empty name inside valid pods with a container list. -/
def expectedPodErrorCount (ps : List PodStats) : Nat :=
  ps.countP (fun p => decide (p.PodRef.Name = "" ∨ p.PodRef.Namespace = ""))
  + ps.countP (fun p => decide (¬ (p.PodRef.Name = "" ∨ p.PodRef.Namespace = ""))
      && p.Containers.isNone)
  + (ps.map (fun p =>
      if p.PodRef.Name = "" ∨ p.PodRef.Namespace = "" then 0
      else
        match p.Containers with
        | none => 0
        | some cs => cs.countP (fun c => decide (c.Name = "")))).sum

/-- The number of errors the spec gives for a summary: one for a node without a
name, plus one for a nil pod list or else the count for the pod list. -/
def expectedErrorCount (s : Summary) : Nat :=
  (if s.Node.NodeName = "" then 1 else 0)
  + (match s.Pods with
     | none => 1
     | some ps => expectedPodErrorCount ps)

/-- A pod record with name and namespace whose container list is nil. -/
def podNoContainers : PodStats :=
  { PodRef := { Name := "r", Namespace := "ns" }, Network := none, Containers := none }

/-- A summary with a node without a name and three pods: the sample pod (one
container without a name), a malformed pod and a pod with a nil container
list. -/
def summaryMixed : Summary :=
  { Node := { NodeName := "", CPU := none, Memory := none, Network := none, Fs := none,
              Runtime := none }
    Pods := some [podSample, podMalformed, podNoContainers] }

/-- The sample summary with the same identifying fields and other metrics. -/
def summarySampleBare : Summary :=
  { Node := { NodeName := "node-1", CPU := none, Memory := none, Network := none, Fs := none,
              Runtime := none }
    Pods := some
      [ { PodRef := { Name := "p", Namespace := "ns" }, Network := none,
          Containers := some
            [ { Name := "c", CPU := none, Memory := none },
              { Name := "", CPU := none,
                Memory := some ⟨some 3, none, none, none, none, none⟩ } ] } ] }

/-- A pod of the namespace "kube-system" holding one container. -/
def podKube : PodStats :=
  { PodRef := { Name := "fluentd-elasticsearch-jnqb7", Namespace := "kube-system" },
    Network := none, Containers := some [containerSample] }

/-- A summary with the sample node and the pod `podKube`. -/
def summaryKubeSystem : Summary :=
  { Node := nodeSample, Pods := some [podKube] }

/-! ## Basic facts on maps and strings -/

@[simp] theorem GoMap.empty_apply {V : Type} (k : String) : (GoMap.empty : GoMap V) k = none := rfl

theorem GoMap.set_apply {V : Type} (m : GoMap V) (k k2 : String) (v : V) :
    (m.set k v) k2 = if k2 = k then some v else m k2 := rfl

@[simp] theorem GoMap.set_same {V : Type} (m : GoMap V) (k : String) (v : V) :
    (m.set k v) k = some v := by
  simp [GoMap.set_apply]

theorem GoMap.set_other {V : Type} (m : GoMap V) (k k2 : String) (v : V) (h : k2 ≠ k) :
    (m.set k v) k2 = m k2 := by
  simp [GoMap.set_apply, h]

theorem str_append_inj_mid (a b x y : String) (h : a ++ x ++ b = a ++ y ++ b) : x = y := by
  have h2 := congrArg String.data h
  simp only [String.data_append] at h2
  have h3 := List.append_cancel_left (List.append_cancel_right h2)
  exact String.ext h3

/-! ## The entity-type generator -/

/-- C1: for the group labels "node" and "namespace" the entity-type generator
returns "k8s:" ++ cluster ++ ":" ++ label with no error, whatever the key, the
default value, the raw entity key and the store; in particular the result on
any store is the result on the empty store. -/
theorem entityType_node_namespace (key defaultValue groupLabel rawEntityID clusterName : String)
    (groups : RawGroups) (h : groupLabel = "node" ∨ groupLabel = "namespace") :
    FromRawGroupsEntityTypeGenerator key defaultValue groupLabel rawEntityID groups clusterName
        = ("k8s:" ++ clusterName ++ ":" ++ groupLabel, none)
    ∧ ∀ groups2 : RawGroups,
        FromRawGroupsEntityTypeGenerator key defaultValue groupLabel rawEntityID groups clusterName
          = FromRawGroupsEntityTypeGenerator key defaultValue groupLabel rawEntityID groups2 clusterName := by
  have hl : groupLabel = "namespace" ∨ groupLabel = "node" := h.symm
  constructor
  · simp [FromRawGroupsEntityTypeGenerator, hl]
  · intro groups2
    simp [FromRawGroupsEntityTypeGenerator, hl]

/-- Witness of C1: label "node" and cluster "prod" give "k8s:prod:node". -/
theorem entityType_node_namespace_witness :
    FromRawGroupsEntityTypeGenerator "namespace" "unknown" "node" "node-1" storePodOnly "prod"
      = ("k8s:prod:node", none) :=
  (entityType_node_namespace "namespace" "unknown" "node" "node-1" "prod" storePodOnly
    (Or.inl rfl)).1

theorem entityType_found (key defaultValue groupLabel rawEntityID clusterName v : String)
    (groups : RawGroups) (h1 : groupLabel ≠ "namespace") (h2 : groupLabel ≠ "node")
    (hf : groups.field groupLabel rawEntityID key = some (Value.str v)) :
    FromRawGroupsEntityTypeGenerator key defaultValue groupLabel rawEntityID groups clusterName
      = ("k8s:" ++ clusterName ++ ":" ++ v ++ ":" ++ categoryLabel groupLabel, none) := by
  unfold RawGroups.field at hf
  unfold FromRawGroupsEntityTypeGenerator categoryLabel
  cases hg : groups groupLabel with
  | none => simp [hg] at hf
  | some gl =>
    cases he : gl rawEntityID with
    | none => simp [hg, he] at hf
    | some en =>
      simp only [hg, he] at hf
      simp [h1, h2, hg, he, hf]

theorem entityType_missing (key defaultValue groupLabel rawEntityID clusterName : String)
    (groups : RawGroups) (h1 : groupLabel ≠ "namespace") (h2 : groupLabel ≠ "node")
    (hf : ∀ v, groups.field groupLabel rawEntityID key ≠ some (Value.str v)) :
    ∃ e, FromRawGroupsEntityTypeGenerator key defaultValue groupLabel rawEntityID groups clusterName
      = ("k8s:" ++ clusterName ++ ":" ++ defaultValue ++ ":" ++ categoryLabel groupLabel, some e) := by
  unfold RawGroups.field at hf
  unfold FromRawGroupsEntityTypeGenerator categoryLabel
  cases hg : groups groupLabel with
  | none => simp [h1, h2, hg]
  | some gl =>
    cases he : gl rawEntityID with
    | none => simp [h1, h2, hg, he]
    | some en =>
      simp only [hg, he] at hf
      cases hk : en key with
      | none => simp [h1, h2, hg, he, hk]
      | some val =>
        cases val with
        | str v => exact absurd hk (hf v)
        | uint n => simp [h1, h2, hg, he, hk]
        | nil => simp [h1, h2, hg, he, hk]

/-- C4 fails as stated: in a store whose "pod" group holds the string "ns" under
the raw key "ns_p" and the key "namespace", and which has no "container" group,
the generator called with the label "container" returns the default-valued type
string with an error, not "k8s:prod:ns:pod" without error. -/
theorem entityType_container_pod_lookup_counterexample :
    storePodOnly.field "pod" "ns_p" "namespace" = some (Value.str "ns")
    ∧ FromRawGroupsEntityTypeGenerator "namespace" "unknown" "container" "ns_p" storePodOnly "prod"
      = ("k8s:prod:unknown:pod", some (Error.groupNotFound "container"))
    ∧ FromRawGroupsEntityTypeGenerator "namespace" "unknown" "container" "ns_p" storePodOnly "prod"
      ≠ ("k8s:" ++ "prod" ++ ":" ++ "ns" ++ ":pod", none) := by
  refine ⟨by decide, by decide, by decide⟩

/-- C4 as amended: for the group label "container" the field is looked up under
the label "container" itself and only the category written in the result is
remapped to "pod": the generator returns ("k8s:" ++ c ++ ":" ++ v ++ ":pod", no
error) exactly when store["container"][rawKey][key] is the string v, and its
result is the same on two stores which have the same "container" group. -/
theorem entityType_container_own_lookup (key defaultValue rawEntityID clusterName v : String)
    (groups : RawGroups) :
    (FromRawGroupsEntityTypeGenerator key defaultValue "container" rawEntityID groups clusterName
        = ("k8s:" ++ clusterName ++ ":" ++ v ++ ":" ++ "pod", none)
      ↔ groups.field "container" rawEntityID key = some (Value.str v))
    ∧ ∀ groups2 : RawGroups, groups2 "container" = groups "container" →
        FromRawGroupsEntityTypeGenerator key defaultValue "container" rawEntityID groups2 clusterName
          = FromRawGroupsEntityTypeGenerator key defaultValue "container" rawEntityID groups
              clusterName := by
  have hn1 : ("container" : String) ≠ "namespace" := by decide
  have hn2 : ("container" : String) ≠ "node" := by decide
  have hcat : categoryLabel "container" = "pod" := by decide
  constructor
  · constructor
    · intro h
      by_cases hex : ∃ w, groups.field "container" rawEntityID key = some (Value.str w)
      · obtain ⟨w, hw⟩ := hex
        have h3 := entityType_found key defaultValue "container" rawEntityID clusterName w
          groups hn1 hn2 hw
        rw [h3, hcat] at h
        have h4 := congrArg Prod.fst h
        simp only at h4
        have h5 := str_append_inj_mid ("k8s:" ++ clusterName ++ ":") (":" ++ "pod") w v
          (by simpa [String.append_assoc] using h4)
        rw [hw, h5]
      · have hall : ∀ w, groups.field "container" rawEntityID key ≠ some (Value.str w) :=
          fun w hw => hex ⟨w, hw⟩
        obtain ⟨e, he⟩ := entityType_missing key defaultValue "container" rawEntityID
          clusterName groups hn1 hn2 hall
        rw [he] at h
        simp at h
    · intro h
      have h3 := entityType_found key defaultValue "container" rawEntityID clusterName v
        groups hn1 hn2 h
      rw [h3, hcat]
  · intro groups2 h
    simp [FromRawGroupsEntityTypeGenerator, h]

/-- Witness of C4 as amended: a store with only a "container" group. -/
theorem entityType_container_own_lookup_witness :
    FromRawGroupsEntityTypeGenerator "namespace" "unknown" "container" "ns_p_c"
        (GoMap.empty.set "container"
          (GoMap.empty.set "ns_p_c" (GoMap.empty.set "namespace" (Value.str "ns")))) "prod"
      = ("k8s:" ++ "prod" ++ ":" ++ "ns" ++ ":" ++ "pod", none) :=
  ((entityType_container_own_lookup "namespace" "unknown" "ns_p_c" "prod" "ns"
    (GoMap.empty.set "container"
      (GoMap.empty.set "ns_p_c" (GoMap.empty.set "namespace" (Value.str "ns"))))).1).2
    (by decide)

/-- C5: for a group label other than "namespace" and "node", with L the category
label ("pod" for "container", the label otherwise), the entity-type generator
returns either the default-valued string "k8s:" ++ c ++ ":" ++ d ++ ":" ++ L with
an error, or "k8s:" ++ c ++ ":" ++ v ++ ":" ++ L with no error for a string v
stored under the key in the store (under the given label and raw key); and when
no entity of the store has a string under the key, it returns the first form. -/
theorem entityType_default_or_value (key defaultValue groupLabel rawEntityID clusterName : String)
    (groups : RawGroups) (h1 : groupLabel ≠ "namespace") (h2 : groupLabel ≠ "node") :
    ((∃ e, FromRawGroupsEntityTypeGenerator key defaultValue groupLabel rawEntityID groups
          clusterName
          = ("k8s:" ++ clusterName ++ ":" ++ defaultValue ++ ":" ++ categoryLabel groupLabel,
              some e))
      ∨ (∃ v, groups.field groupLabel rawEntityID key = some (Value.str v)
          ∧ FromRawGroupsEntityTypeGenerator key defaultValue groupLabel rawEntityID groups
              clusterName
            = ("k8s:" ++ clusterName ++ ":" ++ v ++ ":" ++ categoryLabel groupLabel, none)))
    ∧ ((∀ label rawKey v, groups.field label rawKey key ≠ some (Value.str v)) →
        ∃ e, FromRawGroupsEntityTypeGenerator key defaultValue groupLabel rawEntityID groups
          clusterName
          = ("k8s:" ++ clusterName ++ ":" ++ defaultValue ++ ":" ++ categoryLabel groupLabel,
              some e)) := by
  constructor
  · by_cases hex : ∃ w, groups.field groupLabel rawEntityID key = some (Value.str w)
    · obtain ⟨w, hw⟩ := hex
      exact Or.inr ⟨w, hw, entityType_found key defaultValue groupLabel rawEntityID
        clusterName w groups h1 h2 hw⟩
    · exact Or.inl (entityType_missing key defaultValue groupLabel rawEntityID clusterName
        groups h1 h2 (fun w hw => hex ⟨w, hw⟩))
  · intro hall
    exact entityType_missing key defaultValue groupLabel rawEntityID clusterName groups h1 h2
      (fun w => hall groupLabel rawEntityID w)

/-- Witness of C5: label "container", the field missing from the store, default
"unknown": the result is "k8s:prod:unknown:pod" with an error. -/
theorem entityType_default_or_value_witness :
    ∃ e, FromRawGroupsEntityTypeGenerator "containerCategory" "unknown" "container" "ns_p"
        storePodOnly "prod" = ("k8s:prod:unknown:pod", some e) :=
  (entityType_default_or_value "containerCategory" "unknown" "container" "ns_p" "prod"
    storePodOnly (by decide) (by decide)).2
    (by
      intro label rawKey v
      unfold RawGroups.field storePodOnly
      simp only [GoMap.set_apply, GoMap.empty_apply]
      by_cases hl : label = "pod"
      · by_cases hk : rawKey = "ns_p"
        · simp [GoMap.set_apply, hl, hk]
        · simp [GoMap.set_apply, hl, hk]
      · simp [hl])

/-! ## The extractors, read key by key -/

theorem copied_none (src : Option Nat) : copied src none = src.map Value.uint := by
  cases src <;> rfl

theorem AddUint64RawMetric_apply (r : RawMetrics) (name k : String) (p : Option Nat) :
    AddUint64RawMetric r name p k = if k = name then copied p (r k) else r k := by
  cases p with
  | none => by_cases h : k = name <;> simp [AddUint64RawMetric, copied, h]
  | some v => by_cases h : k = name <;> simp [AddUint64RawMetric, copied, h, GoMap.set_apply]

theorem nodeCPU_apply (r : RawMetrics) (c : Option CPUStats) (k : String) :
    nodeCPU r c k =
      if k = "usageCoreNanoSeconds" then copied (c.bind (fun x => x.UsageCoreNanoSeconds)) (r k)
      else if k = "usageNanoCores" then copied (c.bind (fun x => x.UsageNanoCores)) (r k)
      else r k := by
  cases c with
  | none => simp [nodeCPU, copied]
  | some cpu =>
    simp only [nodeCPU, AddUint64RawMetric_apply, Option.some_bind]
    split_ifs with h1 h2 <;> first | rfl | (subst h1; simp at h2)

theorem nodeMemory_apply (r : RawMetrics) (m : Option MemoryStats) (k : String) :
    nodeMemory r m k =
      if k = "memoryMajorPageFaults" then copied (m.bind (fun x => x.MajorPageFaults)) (r k)
      else if k = "memoryPageFaults" then copied (m.bind (fun x => x.PageFaults)) (r k)
      else if k = "memoryRssBytes" then copied (m.bind (fun x => x.RSSBytes)) (r k)
      else if k = "memoryWorkingSetBytes" then copied (m.bind (fun x => x.WorkingSetBytes)) (r k)
      else if k = "memoryAvailableBytes" then copied (m.bind (fun x => x.AvailableBytes)) (r k)
      else if k = "memoryUsageBytes" then copied (m.bind (fun x => x.UsageBytes)) (r k)
      else r k := by
  cases m with
  | none => simp [nodeMemory, copied]
  | some mem =>
    simp only [nodeMemory, AddUint64RawMetric_apply, Option.some_bind]
    split_ifs <;> first | rfl | (subst_vars; simp_all)

theorem network_apply (r : RawMetrics) (n : Option NetworkStats) (k : String) :
    network r n k =
      if k = "errors" then copied (errorsOf n) (r k)
      else if k = "txBytes" then copied (n.bind (fun x => x.TxBytes)) (r k)
      else if k = "rxBytes" then copied (n.bind (fun x => x.RxBytes)) (r k)
      else r k := by
  cases n with
  | none => simp [network, copied, errorsOf]
  | some net =>
    obtain ⟨rxb, txb, rxe, txe⟩ := net
    cases rxe <;> cases txe <;>
      simp only [network, errorsOf, AddUint64RawMetric_apply, Option.some_bind, GoMap.set_apply] <;>
      split_ifs <;> first | rfl | (subst_vars; simp_all)

/-- The six conditional copies made from a filesystem section, under the six
destination keys given. -/
theorem fs_apply (r : RawMetrics) (fs : FsStats) (k a b c d e f : String)
    (hne : [a, b, c, d, e, f].Nodup) :
    AddUint64RawMetric (AddUint64RawMetric (AddUint64RawMetric (AddUint64RawMetric
      (AddUint64RawMetric (AddUint64RawMetric r a fs.AvailableBytes) b fs.CapacityBytes)
      c fs.UsedBytes) d fs.InodesFree) e fs.Inodes) f fs.InodesUsed k =
      if k = f then copied fs.InodesUsed (r k)
      else if k = e then copied fs.Inodes (r k)
      else if k = d then copied fs.InodesFree (r k)
      else if k = c then copied fs.UsedBytes (r k)
      else if k = b then copied fs.CapacityBytes (r k)
      else if k = a then copied fs.AvailableBytes (r k)
      else r k := by
  simp only [List.nodup_cons, List.mem_cons, List.mem_singleton, not_or, List.not_mem_nil,
    not_false_eq_true, List.nodup_nil, and_true] at hne
  simp only [AddUint64RawMetric_apply]
  split_ifs <;> first | rfl | (subst_vars; simp_all)

theorem nodeFs_apply (r : RawMetrics) (f : Option FsStats) (k : String) :
    nodeFs r f k =
      if k = "fsInodesUsed" then copied (f.bind (fun x => x.InodesUsed)) (r k)
      else if k = "fsInodes" then copied (f.bind (fun x => x.Inodes)) (r k)
      else if k = "fsInodesFree" then copied (f.bind (fun x => x.InodesFree)) (r k)
      else if k = "fsUsedBytes" then copied (f.bind (fun x => x.UsedBytes)) (r k)
      else if k = "fsCapacityBytes" then copied (f.bind (fun x => x.CapacityBytes)) (r k)
      else if k = "fsAvailableBytes" then copied (f.bind (fun x => x.AvailableBytes)) (r k)
      else r k := by
  cases f with
  | none => simp [nodeFs, copied]
  | some fs =>
    simp only [nodeFs, Option.some_bind]
    exact fs_apply r fs k _ _ _ _ _ _ (by decide)

theorem nodeRuntime_apply (r : RawMetrics) (rt : Option RuntimeStats) (k : String) :
    nodeRuntime r rt k =
      if k = "runtimeInodesUsed" then copied ((imageFs rt).bind (fun x => x.InodesUsed)) (r k)
      else if k = "runtimeInodes" then copied ((imageFs rt).bind (fun x => x.Inodes)) (r k)
      else if k = "runtimeInodesFree" then copied ((imageFs rt).bind (fun x => x.InodesFree)) (r k)
      else if k = "runtimeUsedBytes" then copied ((imageFs rt).bind (fun x => x.UsedBytes)) (r k)
      else if k = "runtimeCapacityBytes" then
        copied ((imageFs rt).bind (fun x => x.CapacityBytes)) (r k)
      else if k = "runtimeAvailableBytes" then
        copied ((imageFs rt).bind (fun x => x.AvailableBytes)) (r k)
      else r k := by
  unfold nodeRuntime
  cases imageFs rt with
  | none => simp [copied]
  | some fs =>
    simp only [Option.some_bind]
    exact fs_apply r fs k _ _ _ _ _ _ (by decide)

/-- The metrics written by `fetchNodeStats` for a node with a name, read under
any key: the blocks in the reverse of the order in which they are run. -/
theorem fetchNodeStats_apply (n : NodeStats) (hn : n.NodeName ≠ "") (k : String) :
    (fetchNodeStats n).1 k =
      nodeRuntime (nodeFs (network (nodeMemory (nodeCPU
        (GoMap.empty.set "nodeName" (Value.str n.NodeName)) n.CPU) n.Memory) n.Network) n.Fs)
        n.Runtime k := by
  simp [fetchNodeStats, hn]

theorem fetchPodStats_apply (p : PodStats) (h1 : p.PodRef.Name ≠ "")
    (h2 : p.PodRef.Namespace ≠ "") (k : String) :
    (fetchPodStats p).1 k =
      network ((GoMap.empty.set "podName" (Value.str p.PodRef.Name)).set "namespace"
        (Value.str p.PodRef.Namespace)) p.Network k := by
  simp [fetchPodStats, h1, h2]

theorem fetchContainerStats_apply (c : ContainerStats) (h : c.Name ≠ "") (k : String) :
    (fetchContainerStats c).1 k =
      if k = "usageBytes" then
        copied (c.Memory.bind (fun x => x.UsageBytes))
          ((GoMap.empty.set "containerName" (Value.str c.Name)) k)
      else if k = "usageNanoCores" then
        copied (c.CPU.bind (fun x => x.UsageNanoCores))
          ((GoMap.empty.set "containerName" (Value.str c.Name)) k)
      else (GoMap.empty.set "containerName" (Value.str c.Name)) k := by
  obtain ⟨name, cpu, mem⟩ := c
  simp only at h
  cases cpu <;> cases mem <;>
    simp only [fetchContainerStats, h, if_false, AddUint64RawMetric_apply, Option.some_bind,
      Option.none_bind, copied] <;>
    split_ifs <;> first | rfl | (subst_vars; simp_all)

/-! ## Claims on the extractors -/

theorem imageFs_bind (rt : Option RuntimeStats) (f : FsStats → Option Nat) :
    (imageFs rt).bind f = rt.bind (fun r => r.ImageFs.bind f) := by
  cases rt <;> rfl

/-- C6: each extractor fails exactly on an empty identifying field (the node
name; the pod name or the pod namespace; the container name), and when it fails
the metrics container it returns has no field. -/
theorem extractor_fails_iff_empty_identifier (n : NodeStats) (p : PodStats) (c : ContainerStats) :
    ((fetchNodeStats n).2.2 ≠ none ↔ n.NodeName = "")
    ∧ ((fetchPodStats p).2.2 ≠ none ↔ (p.PodRef.Name = "" ∨ p.PodRef.Namespace = ""))
    ∧ ((fetchContainerStats c).2 ≠ none ↔ c.Name = "")
    ∧ ((fetchNodeStats n).2.2 ≠ none → ∀ k, (fetchNodeStats n).1 k = none)
    ∧ ((fetchPodStats p).2.2 ≠ none → ∀ k, (fetchPodStats p).1 k = none)
    ∧ ((fetchContainerStats c).2 ≠ none → ∀ k, (fetchContainerStats c).1 k = none) := by
  refine ⟨?_, ?_, ?_, ?_, ?_, ?_⟩
  · by_cases h : n.NodeName = "" <;> simp [fetchNodeStats, h]
  · by_cases h : p.PodRef.Name = "" ∨ p.PodRef.Namespace = "" <;> simp [fetchPodStats, h]
  · by_cases h : c.Name = "" <;> simp [fetchContainerStats, h]
  · by_cases h : n.NodeName = "" <;> simp [fetchNodeStats, h]
  · by_cases h : p.PodRef.Name = "" ∨ p.PodRef.Namespace = "" <;> simp [fetchPodStats, h]
  · by_cases h : c.Name = "" <;> simp [fetchContainerStats, h]

/-- C7: for a node with a name, each of the 22 destination keys of
`fetchNodeStats` holds the source value as an unsigned integer when the source
value is present and is missing when it is absent; the same for "rxBytes" and
"txBytes" of a pod with name and namespace, and for "usageNanoCores" and
"usageBytes" of a container with a name. -/
theorem numeric_field_roundtrip (n : NodeStats) (p : PodStats) (c : ContainerStats)
    (hn : n.NodeName ≠ "") (hp1 : p.PodRef.Name ≠ "") (hp2 : p.PodRef.Namespace ≠ "")
    (hc : c.Name ≠ "") :
    (∀ f ∈ nodeNumericFields, (fetchNodeStats n).1 f.1 = (f.2 n).map Value.uint)
    ∧ (∀ f ∈ podNumericFields, (fetchPodStats p).1 f.1 = (f.2 p).map Value.uint)
    ∧ (∀ f ∈ containerNumericFields, (fetchContainerStats c).1 f.1 = (f.2 c).map Value.uint) := by
  refine ⟨?_, ?_, ?_⟩
  · intro f hf
    simp only [nodeNumericFields, List.mem_cons, List.mem_singleton, List.not_mem_nil,
      or_false] at hf
    rw [fetchNodeStats_apply n hn]
    rcases hf with h | h | h | h | h | h | h | h | h | h | h | h | h | h | h | h | h | h | h |
      h | h | h <;> subst h <;>
      simp [nodeRuntime_apply, nodeFs_apply, network_apply, nodeMemory_apply, nodeCPU_apply,
        GoMap.set_apply, copied_none, imageFs_bind]
  · intro f hf
    simp only [podNumericFields, List.mem_cons, List.mem_singleton, List.not_mem_nil,
      or_false] at hf
    rw [fetchPodStats_apply p hp1 hp2]
    rcases hf with h | h <;> subst h <;> simp [network_apply, GoMap.set_apply, copied_none]
  · intro f hf
    simp only [containerNumericFields, List.mem_cons, List.mem_singleton, List.not_mem_nil,
      or_false] at hf
    rw [fetchContainerStats_apply c hc]
    rcases hf with h | h <;> subst h <;> simp [GoMap.set_apply, copied_none]

/-- Witness of C7: the three sample records. -/
theorem numeric_field_roundtrip_witness :
    (∀ f ∈ nodeNumericFields, (fetchNodeStats nodeSample).1 f.1 = (f.2 nodeSample).map Value.uint)
    ∧ (∀ f ∈ podNumericFields, (fetchPodStats podSample).1 f.1 = (f.2 podSample).map Value.uint)
    ∧ (∀ f ∈ containerNumericFields,
        (fetchContainerStats containerSample).1 f.1 = (f.2 containerSample).map Value.uint) :=
  numeric_field_roundtrip nodeSample podSample containerSample (by decide) (by decide)
    (by decide) (by decide)

theorem fetchNodeStats_errors (n : NodeStats) (hn : n.NodeName ≠ "") :
    (fetchNodeStats n).1 "errors" = (errorsOf n.Network).map Value.uint := by
  rw [fetchNodeStats_apply n hn]
  simp [nodeRuntime_apply, nodeFs_apply, network_apply, nodeMemory_apply, nodeCPU_apply,
    GoMap.set_apply, copied_none]

theorem fetchPodStats_errors (p : PodStats) (h1 : p.PodRef.Name ≠ "")
    (h2 : p.PodRef.Namespace ≠ "") :
    (fetchPodStats p).1 "errors" = (errorsOf p.Network).map Value.uint := by
  rw [fetchPodStats_apply p h1 h2]
  simp [network_apply, GoMap.set_apply, copied_none]

theorem errorsOf_ne_none_iff (n : Option NetworkStats) :
    errorsOf n ≠ none ↔
      ∃ net rx tx, n = some net ∧ net.RxErrors = some rx ∧ net.TxErrors = some tx := by
  cases n with
  | none => simp [errorsOf]
  | some net =>
    obtain ⟨rxb, txb, rxe, txe⟩ := net
    cases rxe <;> cases txe <;> simp [errorsOf]

theorem errorsOf_both (n : Option NetworkStats) (net : NetworkStats) (rx tx : Nat)
    (hnet : n = some net) (hrx : net.RxErrors = some rx) (htx : net.TxErrors = some tx) :
    errorsOf n = some (addUint64 rx tx) := by
  subst hnet
  obtain ⟨rxb, txb, rxe, txe⟩ := net
  simp only at hrx htx
  subst hrx htx
  rfl

/-- C8: for a node with a name and for a pod with name and namespace, the
returned container has the key "errors" if and only if the network section is
present and both its receive-error and transmit-error counters are present. -/
theorem errors_present_iff_both_counters (n : NodeStats) (p : PodStats)
    (hn : n.NodeName ≠ "") (hp1 : p.PodRef.Name ≠ "") (hp2 : p.PodRef.Namespace ≠ "") :
    ((fetchNodeStats n).1 "errors" ≠ none ↔
        ∃ net rx tx, n.Network = some net ∧ net.RxErrors = some rx ∧ net.TxErrors = some tx)
    ∧ ((fetchPodStats p).1 "errors" ≠ none ↔
        ∃ net rx tx, p.Network = some net ∧ net.RxErrors = some rx ∧ net.TxErrors = some tx) := by
  constructor
  · rw [fetchNodeStats_errors n hn, ← errorsOf_ne_none_iff]
    cases errorsOf n.Network <;> simp
  · rw [fetchPodStats_errors p hp1 hp2, ← errorsOf_ne_none_iff]
    cases errorsOf p.Network <;> simp

/-- Witness of C8: the sample node has both error counters and gets "errors",
the sample pod lacks the transmit-error counter and does not. -/
theorem errors_present_iff_both_counters_witness :
    (fetchNodeStats nodeSample).1 "errors" ≠ none ∧ ¬ (fetchPodStats podSample).1 "errors" ≠ none :=
  ⟨(errors_present_iff_both_counters nodeSample podSample (by decide) (by decide)
      (by decide)).1.2 ⟨_, 2, 3, rfl, rfl, rfl⟩,
    fun h => by
      obtain ⟨net, rx, tx, h1, _, h3⟩ :=
        (errors_present_iff_both_counters nodeSample podSample (by decide) (by decide)
          (by decide)).2.1 h
      simp only [podSample, Option.some.injEq] at h1
      subst h1
      simp at h3⟩

/-- C9 fails as stated: with the receive-error counter at `2 ^ 64 - 1` and the
transmit-error counter at 1, both of them 64-bit values, the field "errors"
written by `fetchNodeStats` is 0 and not their sum `2 ^ 64`. -/
theorem errors_sum_counterexample :
    (fetchNodeStats nodeOverflow).1 "errors" = some (Value.uint 0)
    ∧ (fetchNodeStats nodeOverflow).1 "errors" ≠ some (Value.uint (18446744073709551615 + 1)) := by
  constructor
  · decide
  · decide

/-- C9 as amended: when both error counters rx and tx are present, the field
"errors" written by `fetchNodeStats` and by `fetchPodStats` is the 64-bit sum
`(rx + tx) % 2 ^ 64`, which is `rx + tx` whenever `rx + tx < 2 ^ 64`. -/
theorem errors_sum_mod (n : NodeStats) (p : PodStats) (netN netP : NetworkStats)
    (rx tx rx2 tx2 : Nat)
    (hn : n.NodeName ≠ "") (hp1 : p.PodRef.Name ≠ "") (hp2 : p.PodRef.Namespace ≠ "")
    (hnetN : n.Network = some netN) (hrx : netN.RxErrors = some rx) (htx : netN.TxErrors = some tx)
    (hnetP : p.Network = some netP) (hrx2 : netP.RxErrors = some rx2)
    (htx2 : netP.TxErrors = some tx2) :
    (fetchNodeStats n).1 "errors" = some (Value.uint ((rx + tx) % 2 ^ 64))
    ∧ (fetchPodStats p).1 "errors" = some (Value.uint ((rx2 + tx2) % 2 ^ 64))
    ∧ (rx + tx < 2 ^ 64 → (fetchNodeStats n).1 "errors" = some (Value.uint (rx + tx)))
    ∧ (rx2 + tx2 < 2 ^ 64 → (fetchPodStats p).1 "errors" = some (Value.uint (rx2 + tx2))) := by
  have e1 : (fetchNodeStats n).1 "errors" = some (Value.uint ((rx + tx) % 2 ^ 64)) := by
    rw [fetchNodeStats_errors n hn, errorsOf_both _ netN rx tx hnetN hrx htx]
    rfl
  have e2 : (fetchPodStats p).1 "errors" = some (Value.uint ((rx2 + tx2) % 2 ^ 64)) := by
    rw [fetchPodStats_errors p hp1 hp2, errorsOf_both _ netP rx2 tx2 hnetP hrx2 htx2]
    rfl
  refine ⟨e1, e2, ?_, ?_⟩
  · intro h
    rw [e1, Nat.mod_eq_of_lt h]
  · intro h
    rw [e2, Nat.mod_eq_of_lt h]

/-- Witness of C9 as amended: counters 2 and 3 on the sample node give 5,
counters 4 and 5 on a pod give 9. -/
theorem errors_sum_mod_witness :
    (fetchNodeStats nodeSample).1 "errors" = some (Value.uint (2 + 3))
    ∧ (fetchPodStats podWithErrors).1 "errors" = some (Value.uint (4 + 5)) :=
  have h := errors_sum_mod nodeSample podWithErrors
    { RxBytes := some 10, TxBytes := none, RxErrors := some 2, TxErrors := some 3 }
    { RxBytes := none, TxBytes := none, RxErrors := some 4, TxErrors := some 5 }
    2 3 4 5 (by decide) (by decide) (by decide) rfl rfl rfl rfl rfl rfl
  ⟨h.2.2.1 (by decide), h.2.2.2 (by decide)⟩

/-! ## The grouper as lists of writes -/

theorem applyWrites_nil {V : Type} (m : GoMap V) : applyWrites m [] = m := rfl

theorem applyWrites_cons {V : Type} (m : GoMap V) (w : String × V) (ws : List (String × V)) :
    applyWrites m (w :: ws) = applyWrites (m.set w.1 w.2) ws := rfl

theorem applyWrites_append {V : Type} (m : GoMap V) (ws1 ws2 : List (String × V)) :
    applyWrites m (ws1 ++ ws2) = applyWrites (applyWrites m ws1) ws2 := by
  simp [applyWrites, List.foldl_append]

theorem applyWrites_of_not_mem {V : Type} (ws : List (String × V)) (m : GoMap V) (k : String)
    (h : ∀ w ∈ ws, w.1 ≠ k) : applyWrites m ws k = m k := by
  induction ws generalizing m with
  | nil => rfl
  | cons w ws ih =>
    rw [applyWrites_cons, ih _ (fun x hx => h x (List.mem_cons_of_mem _ hx))]
    exact GoMap.set_other m w.1 k w.2 (fun hk => h w (List.mem_cons_self _ _) hk.symm)

theorem applyWrites_of_mem {V : Type} (ws : List (String × V)) (m : GoMap V) (k : String)
    (h : ∃ w ∈ ws, w.1 = k) : ∃ w ∈ ws, w.1 = k ∧ applyWrites m ws k = some w.2 := by
  induction ws generalizing m with
  | nil => simp at h
  | cons w ws ih =>
    rw [applyWrites_cons]
    by_cases hex : ∃ x ∈ ws, x.1 = k
    · obtain ⟨x, hx, hk, hv⟩ := ih (m.set w.1 w.2) hex
      exact ⟨x, List.mem_cons_of_mem _ hx, hk, hv⟩
    · have hno : ∀ x ∈ ws, x.1 ≠ k := fun x hx hk => hex ⟨x, hx, hk⟩
      obtain ⟨x, hx, hk⟩ := h
      have hxw : x = w := by
        rcases List.mem_cons.1 hx with h1 | h1
        · exact h1
        · exact absurd hk (hno x h1)
      subst hxw
      refine ⟨x, List.mem_cons_self _ _, hk, ?_⟩
      rw [applyWrites_of_not_mem ws _ k hno, ← hk]
      exact GoMap.set_same m x.1 x.2

theorem writeGroup_nil (g : RawGroups) (label : String) : writeGroup g label [] = g := by
  funext l
  by_cases h : l = label
  · simp only [writeGroup, h, if_true, applyWrites_nil]
    cases g label <;> rfl
  · simp [writeGroup, h]

theorem writeGroup_setEntity (g : RawGroups) (label k : String) (m : RawMetrics)
    (ws : List (String × RawMetrics)) :
    writeGroup (g.setEntity label k m) label ws = writeGroup g label ((k, m) :: ws) := by
  funext l
  by_cases h : l = label
  · simp only [writeGroup, RawGroups.setEntity, h, if_true, applyWrites_cons]
    cases g label <;> rfl
  · simp [writeGroup, RawGroups.setEntity, h]

theorem writeGroup_writeGroup (g : RawGroups) (label : String)
    (ws1 ws2 : List (String × RawMetrics)) :
    writeGroup (writeGroup g label ws1) label ws2 = writeGroup g label (ws1 ++ ws2) := by
  funext l
  by_cases h : l = label
  · simp only [writeGroup, h, if_true, applyWrites_append]
    cases g label <;> rfl
  · simp [writeGroup, h]

theorem writeGroup_comm (g : RawGroups) (l1 l2 : String) (h : l1 ≠ l2)
    (ws1 ws2 : List (String × RawMetrics)) :
    writeGroup (writeGroup g l1 ws1) l2 ws2 = writeGroup (writeGroup g l2 ws2) l1 ws1 := by
  funext l
  by_cases h1 : l = l1
  · have h2 : ¬ l1 = l2 := h
    subst h1
    simp [writeGroup, h2]
  · by_cases h2 : l = l2
    · subst h2
      simp [writeGroup, h1]
    · simp [writeGroup, h1, h2]

theorem containerLoop_eq (rawPodMetrics : RawMetrics) (cs : List ContainerStats)
    (st : RawGroups × List Error) :
    cs.foldl (containerStep rawPodMetrics) st =
      (writeGroup st.1 "container" (containerWrites rawPodMetrics cs),
        st.2 ++ containerErrors cs) := by
  induction cs generalizing st with
  | nil => simp [containerWrites, containerErrors, writeGroup_nil]
  | cons c cs ih =>
    rw [List.foldl_cons, ih]
    rcases h : fetchContainerStats c with ⟨m, _ | err⟩
    · have hstep : containerStep rawPodMetrics st c =
          (st.1.setEntity "container" (containerEntry rawPodMetrics c).1
            (containerEntry rawPodMetrics c).2, st.2) := by
        simp [containerStep, containerEntry, h]
      rw [hstep]
      simp only [containerWrites, containerErrors, h, writeGroup_setEntity]
    · have hstep : containerStep rawPodMetrics st c = (st.1, st.2 ++ [err]) := by
        simp [containerStep, h]
      rw [hstep]
      simp [containerWrites, containerErrors, h]

theorem podLoop_eq (ps : List PodStats) (st : RawGroups × List Error) :
    ps.foldl podStep st =
      (writeGroup (writeGroup st.1 "pod" (podWrites ps)) "container" (allContainerWrites ps),
        st.2 ++ podErrors ps) := by
  induction ps generalizing st with
  | nil => simp [podWrites, allContainerWrites, podErrors, writeGroup_nil]
  | cons p ps ih =>
    rw [List.foldl_cons, ih]
    have hpc : ("pod" : String) ≠ "container" := by decide
    rcases h : fetchPodStats p with ⟨m, k, _ | err⟩
    · cases hc : p.Containers with
      | none =>
        have hstep : podStep st p =
            (st.1.setEntity "pod" k m, st.2 ++ [Error.containersDataNotFound]) := by
          simp [podStep, h, hc]
        rw [hstep]
        simp [podWrites, allContainerWrites, podErrors, h, hc, writeGroup_setEntity]
      | some cs =>
        have hstep : podStep st p =
            (writeGroup (st.1.setEntity "pod" k m) "container" (containerWrites m cs),
              st.2 ++ containerErrors cs) := by
          simp [podStep, h, hc, containerLoop_eq]
        rw [hstep]
        simp only [podWrites, allContainerWrites, podErrors, h, hc, List.append_assoc]
        rw [writeGroup_comm _ "container" "pod" hpc.symm, writeGroup_setEntity,
          writeGroup_writeGroup]
    · have hstep : podStep st p = (st.1, st.2 ++ [err]) := by
        simp [podStep, h]
      rw [hstep]
      simp [podWrites, allContainerWrites, podErrors, h]

theorem nodeStep_eq (n : NodeStats) :
    nodeStep (initGroups, []) n = (writeGroup initGroups "node" (nodeWrites n), nodeErrors n) := by
  rcases h : fetchNodeStats n with ⟨m, k, _ | err⟩
  · simp [nodeStep, nodeWrites, nodeErrors, h, ← writeGroup_setEntity, writeGroup_nil]
  · simp [nodeStep, nodeWrites, nodeErrors, h, writeGroup_nil]

/-- The result of `GroupStatsSummary` on a summary with a pod list, as three
lists of writes on the seeded store and the list of errors. -/
theorem GroupStatsSummary_pods (s : Summary) (ps : List PodStats) (h : s.Pods = some ps) :
    GroupStatsSummary s =
      (writeGroup (writeGroup (writeGroup initGroups "node" (nodeWrites s.Node)) "pod"
          (podWrites ps)) "container" (allContainerWrites ps),
        nodeErrors s.Node ++ podErrors ps) := by
  simp [GroupStatsSummary, h, nodeStep_eq, podLoop_eq]

/-- The result of `GroupStatsSummary` on a summary whose pod list is nil. -/
theorem GroupStatsSummary_nil (s : Summary) (h : s.Pods = none) :
    GroupStatsSummary s =
      (writeGroup initGroups "node" (nodeWrites s.Node),
        nodeErrors s.Node ++ [Error.podsDataNotFound]) := by
  simp [GroupStatsSummary, h, nodeStep_eq]

/-! ## What the extractors return on well-formed records -/

theorem fetchPodStats_err (p : PodStats) :
    (fetchPodStats p).2.2 = none ↔ (p.PodRef.Name ≠ "" ∧ p.PodRef.Namespace ≠ "") := by
  by_cases h : p.PodRef.Name = "" ∨ p.PodRef.Namespace = ""
  · simp only [fetchPodStats, h, if_true]
    rcases h with h | h <;> simp [h]
  · simp only [fetchPodStats, h, if_false]
    simpa [not_or] using h

theorem fetchPodStats_namespace (p : PodStats) (h1 : p.PodRef.Name ≠ "")
    (h2 : p.PodRef.Namespace ≠ "") :
    (fetchPodStats p).1 "namespace" = some (Value.str p.PodRef.Namespace) := by
  rw [fetchPodStats_apply p h1 h2]
  simp [network_apply, GoMap.set_apply]

theorem fetchPodStats_podName (p : PodStats) (h1 : p.PodRef.Name ≠ "")
    (h2 : p.PodRef.Namespace ≠ "") :
    (fetchPodStats p).1 "podName" = some (Value.str p.PodRef.Name) := by
  rw [fetchPodStats_apply p h1 h2]
  simp [network_apply, GoMap.set_apply]

theorem fetchPodStats_key (p : PodStats) (h1 : p.PodRef.Name ≠ "")
    (h2 : p.PodRef.Namespace ≠ "") : (fetchPodStats p).2.1 = podKey p := by
  have hns := fetchPodStats_namespace p h1 h2
  have hname := fetchPodStats_podName p h1 h2
  have hor : ¬ (p.PodRef.Name = "" ∨ p.PodRef.Namespace = "") := by simp [h1, h2]
  simp only [fetchPodStats, hor, if_false] at hns hname ⊢
  simp only [GoMap.get, hns, hname, fmtS, podKey]

theorem fetchContainerStats_err (c : ContainerStats) :
    (fetchContainerStats c).2 = none ↔ c.Name ≠ "" := by
  by_cases h : c.Name = "" <;> simp [fetchContainerStats, h]

theorem fetchContainerStats_containerName (c : ContainerStats) (h : c.Name ≠ "") :
    (fetchContainerStats c).1 "containerName" = some (Value.str c.Name) := by
  rw [fetchContainerStats_apply c h]
  simp [GoMap.set_apply]

theorem containerEntry_key (p : PodStats) (c : ContainerStats) (h1 : p.PodRef.Name ≠ "")
    (h2 : p.PodRef.Namespace ≠ "") (hc : c.Name ≠ "") :
    (containerEntry (fetchPodStats p).1 c).1 = containerKey p c := by
  have hns := fetchPodStats_namespace p h1 h2
  have hname := fetchPodStats_podName p h1 h2
  have hcn := fetchContainerStats_containerName c hc
  simp [containerEntry, GoMap.get, GoMap.set_apply, hns, hname, hcn, fmtS, containerKey]

theorem containerEntry_containerName (rawPodMetrics : RawMetrics) (c : ContainerStats)
    (hc : c.Name ≠ "") :
    (containerEntry rawPodMetrics c).2 "containerName" = some (Value.str c.Name) := by
  have hcn := fetchContainerStats_containerName c hc
  simp [containerEntry, GoMap.set_apply, hcn]

theorem mem_podWrites (ps : List PodStats) (w : String × RawMetrics) :
    w ∈ podWrites ps ↔
      ∃ p ∈ ps, (p.PodRef.Name ≠ "" ∧ p.PodRef.Namespace ≠ "") ∧
        w = (podKey p, (fetchPodStats p).1) := by
  induction ps with
  | nil => simp [podWrites]
  | cons p ps ih =>
    by_cases hv : p.PodRef.Name ≠ "" ∧ p.PodRef.Namespace ≠ ""
    · have he := (fetchPodStats_err p).2 hv
      simp only [podWrites, he, List.mem_cons, ih, fetchPodStats_key p hv.1 hv.2,
        exists_eq_or_imp]
      simp [hv]
    · have he : (fetchPodStats p).2.2 ≠ none := fun h => hv ((fetchPodStats_err p).1 h)
      cases hx : (fetchPodStats p).2.2 with
      | none => exact absurd hx he
      | some err =>
        simp only [podWrites, hx, ih, List.mem_cons, exists_eq_or_imp]
        simp [hv]

theorem mem_containerWrites (rawPodMetrics : RawMetrics) (cs : List ContainerStats)
    (w : String × RawMetrics) :
    w ∈ containerWrites rawPodMetrics cs ↔
      ∃ c ∈ cs, c.Name ≠ "" ∧ w = containerEntry rawPodMetrics c := by
  induction cs with
  | nil => simp [containerWrites]
  | cons c cs ih =>
    by_cases hv : c.Name ≠ ""
    · have he := (fetchContainerStats_err c).2 hv
      simp only [containerWrites, he, List.mem_cons, ih, exists_eq_or_imp]
      simp [hv]
    · have he : (fetchContainerStats c).2 ≠ none :=
        fun h => hv ((fetchContainerStats_err c).1 h)
      cases hx : (fetchContainerStats c).2 with
      | none => exact absurd hx he
      | some err =>
        simp only [containerWrites, hx, ih, List.mem_cons, exists_eq_or_imp]
        simp [hv]

theorem mem_allContainerWrites (ps : List PodStats) (w : String × RawMetrics) :
    w ∈ allContainerWrites ps ↔
      ∃ p ∈ ps, (p.PodRef.Name ≠ "" ∧ p.PodRef.Namespace ≠ "") ∧
        ∃ cs, p.Containers = some cs ∧
          ∃ c ∈ cs, c.Name ≠ "" ∧ w = containerEntry (fetchPodStats p).1 c := by
  induction ps with
  | nil => simp [allContainerWrites]
  | cons p ps ih =>
    by_cases hv : p.PodRef.Name ≠ "" ∧ p.PodRef.Namespace ≠ ""
    · have he := (fetchPodStats_err p).2 hv
      cases hc : p.Containers with
      | none =>
        simp only [allContainerWrites, he, hc, ih, List.mem_cons, exists_eq_or_imp]
        simp
      | some cs =>
        simp only [allContainerWrites, he, hc, ih, List.mem_cons, exists_eq_or_imp,
          List.mem_append, mem_containerWrites]
        simp [hv]
    · have he : (fetchPodStats p).2.2 ≠ none := fun h => hv ((fetchPodStats_err p).1 h)
      cases hx : (fetchPodStats p).2.2 with
      | none => exact absurd hx he
      | some err =>
        simp only [allContainerWrites, hx, ih, List.mem_cons, exists_eq_or_imp]
        simp [hv]

theorem TrimPrefix_append (a b : String) : TrimPrefix (a ++ b) a = b := by
  unfold TrimPrefix
  have hp : a.data.isPrefixOf (a ++ b).data = true := by
    rw [List.isPrefixOf_iff_prefix, String.data_append]
    exact List.prefix_append _ _
  rw [if_pos hp]
  apply String.ext
  simp [String.data_append]

/-! ## What the store of the grouper holds -/

theorem store_pod (s : Summary) (ps : List PodStats) (h : s.Pods = some ps) :
    (GroupStatsSummary s).1 "pod" = some (applyWrites GoMap.empty (podWrites ps)) := by
  rw [GroupStatsSummary_pods s ps h]
  simp [writeGroup, initGroups, GoMap.set_apply]

theorem store_container (s : Summary) (ps : List PodStats) (h : s.Pods = some ps) :
    (GroupStatsSummary s).1 "container" =
      some (applyWrites GoMap.empty (allContainerWrites ps)) := by
  rw [GroupStatsSummary_pods s ps h]
  simp [writeGroup, initGroups, GoMap.set_apply]

theorem store_node (s : Summary) :
    (GroupStatsSummary s).1 "node" = some (applyWrites GoMap.empty (nodeWrites s.Node)) := by
  cases h : s.Pods with
  | none =>
    rw [GroupStatsSummary_nil s h]
    simp [writeGroup, initGroups, GoMap.set_apply]
  | some ps =>
    rw [GroupStatsSummary_pods s ps h]
    simp [writeGroup, initGroups, GoMap.set_apply]

theorem store_labels (s : Summary) (l : String) :
    (GroupStatsSummary s).1 l ≠ none ↔ (l = "node" ∨ l = "pod" ∨ l = "container") := by
  have hw : ∀ (g : RawGroups) (label : String) (ws : List (String × RawMetrics)),
      (writeGroup g label ws l ≠ none ↔ g l ≠ none) := by
    intro g label ws
    by_cases hl : l = label
    · simp only [writeGroup, hl, if_true]
      cases g label <;> simp
    · simp [writeGroup, hl]
  have hi : initGroups l ≠ none ↔ (l = "node" ∨ l = "pod" ∨ l = "container") := by
    simp only [initGroups, GoMap.set_apply, GoMap.empty_apply]
    split_ifs with h1 h2 h3 <;> simp_all
  cases h : s.Pods with
  | none => rw [GroupStatsSummary_nil s h, hw, hi]
  | some ps => rw [GroupStatsSummary_pods s ps h, hw, hw, hw, hi]

/-! ## Claims on the grouper -/

/-- C2 fails as stated: in `summaryPodClash` the first pod has namespace "a_b"
and name "c", its raw key "a_b_c" is also the raw key of the second pod, whose
entry replaces it, and the generator with field "namespace" returns "b_c" and
not the name "c" of the first pod. -/
theorem pod_key_recovers_name_counterexample :
    podClashFirst ∈ summaryPodClash.Pods.getD []
    ∧ podClashFirst.PodRef.Name ≠ "" ∧ podClashFirst.PodRef.Namespace ≠ ""
    ∧ FromRawEntityIDGroupEntityIDGenerator "namespace" "pod"
        (podClashFirst.PodRef.Namespace ++ "_" ++ podClashFirst.PodRef.Name)
        (GroupStatsSummary summaryPodClash).1 = ("b_c", none)
    ∧ FromRawEntityIDGroupEntityIDGenerator "namespace" "pod"
        (podClashFirst.PodRef.Namespace ++ "_" ++ podClashFirst.PodRef.Name)
        (GroupStatsSummary summaryPodClash).1 ≠ (podClashFirst.PodRef.Name, none) := by
  refine ⟨by decide, by decide, by decide, by decide, by decide⟩

/-- C3 fails as stated: in `summaryContainerClash` the container "d" of the
first pod (namespace "a", name "b_c") has the raw key "a_b_c_d", which is also
the raw key of the container "c_d" of the second pod, whose entry replaces it,
and the generator with field "containerName" returns "c_d" and not "d". -/
theorem container_key_recovers_name_counterexample :
    containerClashPod ∈ summaryContainerClash.Pods.getD []
    ∧ containerClashPod.PodRef.Name ≠ "" ∧ containerClashPod.PodRef.Namespace ≠ ""
    ∧ containerClashPod.Containers = some [containerClashFirst]
    ∧ containerClashFirst.Name ≠ ""
    ∧ FromRawGroupsEntityIDGenerator "containerName" "container"
        (containerClashPod.PodRef.Namespace ++ "_" ++ containerClashPod.PodRef.Name ++ "_" ++
          containerClashFirst.Name)
        (GroupStatsSummary summaryContainerClash).1 = ("c_d", none)
    ∧ FromRawGroupsEntityIDGenerator "containerName" "container"
        (containerClashPod.PodRef.Namespace ++ "_" ++ containerClashPod.PodRef.Name ++ "_" ++
          containerClashFirst.Name)
        (GroupStatsSummary summaryContainerClash).1 ≠ (containerClashFirst.Name, none) := by
  refine ⟨by decide, by decide, by decide, by decide, by decide, by decide, by decide⟩

/-- C10: for every summary the store returned by `GroupStatsSummary` has exactly
the three top-level keys "node", "pod" and "container", each mapped to a group,
and the group "node" has at most one entry. -/
theorem store_has_three_groups (s : Summary) :
    (∀ l, (GroupStatsSummary s).1 l ≠ none ↔ (l = "node" ∨ l = "pod" ∨ l = "container"))
    ∧ ∃ nodeGroup, (GroupStatsSummary s).1 "node" = some nodeGroup
        ∧ ∀ k1 k2, nodeGroup k1 ≠ none → nodeGroup k2 ≠ none → k1 = k2 := by
  refine ⟨store_labels s, _, store_node s, ?_⟩
  intro k1 k2 hk1 hk2
  unfold nodeWrites at hk1 hk2
  cases h : (fetchNodeStats s.Node).2.2 with
  | some err =>
    rw [h] at hk1
    exact absurd rfl hk1
  | none =>
    rw [h] at hk1 hk2
    simp only [applyWrites, List.foldl_cons, List.foldl_nil, GoMap.set_apply,
      GoMap.empty_apply] at hk1 hk2
    have e1 : k1 = (fetchNodeStats s.Node).2.1 := by
      by_contra hne
      simp [hne] at hk1
    have e2 : k2 = (fetchNodeStats s.Node).2.1 := by
      by_contra hne
      simp [hne] at hk2
    rw [e1, e2]

/-! ## More on lists of writes -/

theorem applyWrites_empty_some {V : Type} (ws : List (String × V)) (k : String) (v : V)
    (h : applyWrites GoMap.empty ws k = some v) : ∃ w ∈ ws, w.1 = k ∧ w.2 = v := by
  by_cases hex : ∃ w ∈ ws, w.1 = k
  · obtain ⟨w, hw, hk, hv⟩ := applyWrites_of_mem ws GoMap.empty k hex
    rw [hv] at h
    exact ⟨w, hw, hk, Option.some.inj h⟩
  · have hno : ∀ w ∈ ws, w.1 ≠ k := fun w hw hk => hex ⟨w, hw, hk⟩
    rw [applyWrites_of_not_mem ws GoMap.empty k hno] at h
    simp at h

theorem applyWrites_ne_none_iff {V : Type} (ws : List (String × V)) (k : String) :
    applyWrites GoMap.empty ws k ≠ none ↔ ∃ w ∈ ws, w.1 = k := by
  constructor
  · intro h
    cases hv : applyWrites GoMap.empty ws k with
    | none => exact absurd hv h
    | some v =>
      obtain ⟨w, hw, hk, _⟩ := applyWrites_empty_some ws k v hv
      exact ⟨w, hw, hk⟩
  · intro hex
    obtain ⟨w, _, _, hv⟩ := applyWrites_of_mem ws GoMap.empty k hex
    rw [hv]
    simp

theorem applyWrites_last {V : Type} (m : GoMap V) (ws1 ws2 : List (String × V))
    (w : String × V) (h : ∀ x ∈ ws2, x.1 ≠ w.1) :
    applyWrites m (ws1 ++ w :: ws2) w.1 = some w.2 := by
  rw [applyWrites_append, applyWrites_cons, applyWrites_of_not_mem ws2 _ w.1 h]
  exact GoMap.set_same _ _ _

theorem containerWrites_append (rawPodMetrics : RawMetrics) (cs1 cs2 : List ContainerStats) :
    containerWrites rawPodMetrics (cs1 ++ cs2) =
      containerWrites rawPodMetrics cs1 ++ containerWrites rawPodMetrics cs2 := by
  induction cs1 with
  | nil => rfl
  | cons c cs ih =>
    cases h : (fetchContainerStats c).2 <;> simp [containerWrites, h, ih]

theorem podWrites_append (ps1 ps2 : List PodStats) :
    podWrites (ps1 ++ ps2) = podWrites ps1 ++ podWrites ps2 := by
  induction ps1 with
  | nil => rfl
  | cons p ps ih =>
    cases h : (fetchPodStats p).2.2 <;> simp [podWrites, h, ih]

theorem allContainerWrites_append (ps1 ps2 : List PodStats) :
    allContainerWrites (ps1 ++ ps2) = allContainerWrites ps1 ++ allContainerWrites ps2 := by
  induction ps1 with
  | nil => rfl
  | cons p ps ih =>
    cases h : (fetchPodStats p).2.2 <;> cases hc : p.Containers <;>
      simp [allContainerWrites, h, hc, ih]

theorem podErrors_append (ps1 ps2 : List PodStats) :
    podErrors (ps1 ++ ps2) = podErrors ps1 ++ podErrors ps2 := by
  induction ps1 with
  | nil => rfl
  | cons p ps ih =>
    cases h : (fetchPodStats p).2.2 <;> cases hc : p.Containers <;>
      simp [podErrors, h, hc, ih]

theorem fetchPodStats_invalid (p : PodStats)
    (h : p.PodRef.Name = "" ∨ p.PodRef.Namespace = "") :
    (fetchPodStats p).2.2 = some Error.emptyPodIdentifier := by
  simp [fetchPodStats, h]

theorem fetchContainerStats_invalid (c : ContainerStats) (h : c.Name = "") :
    (fetchContainerStats c).2 = some Error.emptyContainerIdentifier := by
  simp [fetchContainerStats, h]

theorem fetchNodeStats_invalid (n : NodeStats) (h : n.NodeName = "") :
    (fetchNodeStats n).2.2 = some Error.emptyNodeIdentifier := by
  simp [fetchNodeStats, h]

theorem fetchNodeStats_valid (n : NodeStats) (h : n.NodeName ≠ "") :
    (fetchNodeStats n).2.2 = none ∧ (fetchNodeStats n).2.1 = n.NodeName := by
  simp [fetchNodeStats, h]

theorem containerEntry_podName (p : PodStats) (c : ContainerStats) (h1 : p.PodRef.Name ≠ "")
    (h2 : p.PodRef.Namespace ≠ "") :
    (containerEntry (fetchPodStats p).1 c).2 "podName" = some (Value.str p.PodRef.Name) := by
  have hname := fetchPodStats_podName p h1 h2
  simp [containerEntry, GoMap.set_apply, GoMap.get, hname]

theorem containerEntry_namespace (p : PodStats) (c : ContainerStats) (h1 : p.PodRef.Name ≠ "")
    (h2 : p.PodRef.Namespace ≠ "") :
    (containerEntry (fetchPodStats p).1 c).2 "namespace"
      = some (Value.str p.PodRef.Namespace) := by
  have hns := fetchPodStats_namespace p h1 h2
  simp [containerEntry, GoMap.set_apply, GoMap.get, hns]

theorem store_pod_nil (s : Summary) (h : s.Pods = none) :
    (GroupStatsSummary s).1 "pod" = some GoMap.empty := by
  rw [GroupStatsSummary_nil s h]
  simp [writeGroup, initGroups, GoMap.set_apply]

theorem store_container_nil (s : Summary) (h : s.Pods = none) :
    (GroupStatsSummary s).1 "container" = some GoMap.empty := by
  rw [GroupStatsSummary_nil s h]
  simp [writeGroup, initGroups, GoMap.set_apply]

/-! ## Claims on the grouper, continued -/

/-- C11: every entry e stored in the group "container" under a key k carries
the string fields "podName", "namespace" and "containerName", all non-empty;
they are the name and the namespace of a pod p of the input and the name of a
container c of the container list of p, and
k = e["namespace"] ++ "_" ++ e["podName"] ++ "_" ++ e["containerName"]. -/
theorem container_entry_carries_parent (s : Summary) (grp : GoMap RawMetrics) (k : String)
    (e : RawMetrics) (hg : (GroupStatsSummary s).1 "container" = some grp)
    (he : grp k = some e) :
    ∃ ps p cs c, s.Pods = some ps ∧ p ∈ ps ∧ p.Containers = some cs ∧ c ∈ cs
      ∧ p.PodRef.Name ≠ "" ∧ p.PodRef.Namespace ≠ "" ∧ c.Name ≠ ""
      ∧ e "podName" = some (Value.str p.PodRef.Name)
      ∧ e "namespace" = some (Value.str p.PodRef.Namespace)
      ∧ e "containerName" = some (Value.str c.Name)
      ∧ k = p.PodRef.Namespace ++ "_" ++ p.PodRef.Name ++ "_" ++ c.Name := by
  cases hps : s.Pods with
  | none =>
    rw [store_container_nil s hps] at hg
    rw [← Option.some.inj hg] at he
    simp at he
  | some ps =>
    rw [store_container s ps hps] at hg
    rw [← Option.some.inj hg] at he
    obtain ⟨w, hw, hk, hv⟩ := applyWrites_empty_some (allContainerWrites ps) k e he
    obtain ⟨p, hp, hpv, cs, hcs, c, hc, hcn, hwe⟩ := (mem_allContainerWrites ps w).1 hw
    subst hwe
    refine ⟨ps, p, cs, c, rfl, hp, hcs, hc, hpv.1, hpv.2, hcn, ?_, ?_, ?_, ?_⟩
    · rw [← hv]
      exact containerEntry_podName p c hpv.1 hpv.2
    · rw [← hv]
      exact containerEntry_namespace p c hpv.1 hpv.2
    · rw [← hv]
      exact containerEntry_containerName _ c hcn
    · rw [← hk]
      exact containerEntry_key p c hpv.1 hpv.2 hcn

/-- Witness of C11: the entry of the named container of the sample pod, under
the key "ns_p_c". -/
theorem container_entry_carries_parent_witness :
    ∃ ps p cs c, summarySample.Pods = some ps ∧ p ∈ ps ∧ p.Containers = some cs ∧ c ∈ cs
      ∧ p.PodRef.Name ≠ "" ∧ p.PodRef.Namespace ≠ "" ∧ c.Name ≠ ""
      ∧ (containerEntry (fetchPodStats podSample).1 containerSample).2 "podName"
          = some (Value.str p.PodRef.Name)
      ∧ (containerEntry (fetchPodStats podSample).1 containerSample).2 "namespace"
          = some (Value.str p.PodRef.Namespace)
      ∧ (containerEntry (fetchPodStats podSample).1 containerSample).2 "containerName"
          = some (Value.str c.Name)
      ∧ "ns_p_c" = p.PodRef.Namespace ++ "_" ++ p.PodRef.Name ++ "_" ++ c.Name :=
  container_entry_carries_parent summarySample
    (applyWrites GoMap.empty (allContainerWrites [podSample])) "ns_p_c"
    (containerEntry (fetchPodStats podSample).1 containerSample).2
    (store_container summarySample [podSample] rfl) rfl

/-- C12 fails as stated: on `summaryEmptyPodName` (a node with a name, one pod
with an empty name and a nil container list) the grouper returns one error, the
one of the pod, and not two. -/
theorem empty_pod_name_scenario_counterexample :
    summaryEmptyPodName.Node.NodeName ≠ ""
    ∧ summaryEmptyPodName.Pods.map (fun ps => ps.map (fun p => (p.PodRef.Name, p.Containers)))
        = some [("", none)]
    ∧ (GroupStatsSummary summaryEmptyPodName).2 = [Error.emptyPodIdentifier]
    ∧ (GroupStatsSummary summaryEmptyPodName).2.length ≠ 2 := by
  refine ⟨by decide, by decide, by decide, by decide⟩

/-- C12 as amended: for a summary with a node with a name and a pod list made of
one pod whose name is empty and whose container list is nil, the store holds the
node under its name in the group "node" and nothing else there, its groups "pod"
and "container" are empty, and exactly one error is returned, the empty pod
identifier one. -/
theorem empty_pod_name_scenario (node : NodeStats) (pod : PodStats)
    (hn : node.NodeName ≠ "") (hp : pod.PodRef.Name = "") (_hc : pod.Containers = none) :
    (∃ grp, (GroupStatsSummary { Node := node, Pods := some [pod] }).1 "node" = some grp
        ∧ grp node.NodeName = some (fetchNodeStats node).1
        ∧ ∀ k, k ≠ node.NodeName → grp k = none)
    ∧ (GroupStatsSummary { Node := node, Pods := some [pod] }).1 "pod" = some GoMap.empty
    ∧ (GroupStatsSummary { Node := node, Pods := some [pod] }).1 "container" = some GoMap.empty
    ∧ (GroupStatsSummary { Node := node, Pods := some [pod] }).2 = [Error.emptyPodIdentifier] := by
  have hpe := fetchPodStats_invalid pod (Or.inl hp)
  have hne := fetchNodeStats_valid node hn
  have hpw : podWrites [pod] = [] := by simp [podWrites, hpe]
  have hcw : allContainerWrites [pod] = [] := by simp [allContainerWrites, hpe]
  have hpr : podErrors [pod] = [Error.emptyPodIdentifier] := by simp [podErrors, hpe]
  have hnw : nodeWrites node = [(node.NodeName, (fetchNodeStats node).1)] := by
    simp [nodeWrites, hne.1, hne.2]
  have hner : nodeErrors node = [] := by simp [nodeErrors, hne.1]
  refine ⟨⟨_, store_node _, ?_, ?_⟩, ?_, ?_, ?_⟩
  · simp [hnw, applyWrites]
  · intro k hk
    simp [hnw, applyWrites, GoMap.set_apply, hk]
  · rw [store_pod _ [pod] rfl, hpw]
    rfl
  · rw [store_container _ [pod] rfl, hcw]
    rfl
  · rw [GroupStatsSummary_pods _ [pod] rfl]
    simp [hner, hpr]

/-- Witness of C12 as amended: `summaryEmptyPodName`. -/
theorem empty_pod_name_scenario_witness :
    (GroupStatsSummary summaryEmptyPodName).1 "pod" = some GoMap.empty
    ∧ (GroupStatsSummary summaryEmptyPodName).2 = [Error.emptyPodIdentifier] :=
  have h := empty_pod_name_scenario nodeSample
    { PodRef := { Name := "", Namespace := "ns" }, Network := none, Containers := none }
    (by decide) rfl rfl
  ⟨h.2.1, h.2.2.2⟩

/-- C13: inserting a malformed pod (empty name or empty namespace, whatever its
container list and metrics) at any position of a pod list leaves the store
returned by `GroupStatsSummary` unchanged and makes the error list one element
longer. -/
theorem malformed_pod_isolated (node : NodeStats) (before after : List PodStats)
    (bad : PodStats) (hbad : bad.PodRef.Name = "" ∨ bad.PodRef.Namespace = "") :
    (GroupStatsSummary { Node := node, Pods := some (before ++ bad :: after) }).1
      = (GroupStatsSummary { Node := node, Pods := some (before ++ after) }).1
    ∧ (GroupStatsSummary { Node := node, Pods := some (before ++ bad :: after) }).2.length
      = (GroupStatsSummary { Node := node, Pods := some (before ++ after) }).2.length + 1 := by
  have hpe := fetchPodStats_invalid bad hbad
  have hpw : podWrites (bad :: after) = podWrites after := by simp [podWrites, hpe]
  have hcw : allContainerWrites (bad :: after) = allContainerWrites after := by
    simp [allContainerWrites, hpe]
  have hpr : podErrors (bad :: after) = Error.emptyPodIdentifier :: podErrors after := by
    simp [podErrors, hpe]
  rw [GroupStatsSummary_pods _ (before ++ bad :: after) rfl,
    GroupStatsSummary_pods _ (before ++ after) rfl]
  simp only [podWrites_append, allContainerWrites_append, podErrors_append, hpw, hcw, hpr]
  constructor
  · trivial
  · simp only [List.length_append, List.length_cons]
    omega

/-- Witness of C13: a valid pod followed by a malformed one gives the store of
the valid pod alone, with its pod entry and its container entry, and one error
more. -/
theorem malformed_pod_isolated_witness :
    ((GroupStatsSummary { Node := nodeSample, Pods := some ([podClean] ++ podMalformed :: []) }).1
        = (GroupStatsSummary { Node := nodeSample, Pods := some ([podClean] ++ []) }).1
      ∧ (GroupStatsSummary
            { Node := nodeSample, Pods := some ([podClean] ++ podMalformed :: []) }).2.length
        = (GroupStatsSummary { Node := nodeSample, Pods := some ([podClean] ++ []) }).2.length + 1)
    ∧ (GroupStatsSummary { Node := nodeSample, Pods := some ([podClean] ++ []) }).2 = []
    ∧ (GroupStatsSummary { Node := nodeSample, Pods := some ([podClean] ++ []) }).1.field
        "pod" "ns_p" "podName" = some (Value.str "p")
    ∧ (GroupStatsSummary { Node := nodeSample, Pods := some ([podClean] ++ []) }).1.field
        "container" "ns_p_c" "containerName" = some (Value.str "c") :=
  ⟨malformed_pod_isolated nodeSample [podClean] [] podMalformed (Or.inr rfl),
    by decide, by decide, by decide⟩

/-- C14: when the pod list is nil, the groups "pod" and "container" of the store
are empty, the group "node" holds the node entry exactly when the node name is
not empty, and the error list ends with the missing-pods error: it is that error
alone for a node with a name, and the node error followed by it otherwise. A pod
list that is present and empty gives no missing-pods error. -/
theorem nil_pod_list (node : NodeStats) :
    (GroupStatsSummary { Node := node, Pods := none }).1 "pod" = some GoMap.empty
    ∧ (GroupStatsSummary { Node := node, Pods := none }).1 "container" = some GoMap.empty
    ∧ (GroupStatsSummary { Node := node, Pods := none }).2.getLast?
        = some Error.podsDataNotFound
    ∧ (node.NodeName ≠ "" →
        (∃ grp, (GroupStatsSummary { Node := node, Pods := none }).1 "node" = some grp
          ∧ grp node.NodeName = some (fetchNodeStats node).1
          ∧ ∀ k, k ≠ node.NodeName → grp k = none)
        ∧ (GroupStatsSummary { Node := node, Pods := none }).2 = [Error.podsDataNotFound])
    ∧ (node.NodeName = "" →
        (GroupStatsSummary { Node := node, Pods := none }).1 "node" = some GoMap.empty
        ∧ (GroupStatsSummary { Node := node, Pods := none }).2
            = [Error.emptyNodeIdentifier, Error.podsDataNotFound])
    ∧ Error.podsDataNotFound ∉ (GroupStatsSummary { Node := node, Pods := some [] }).2 := by
  refine ⟨store_pod_nil _ rfl, store_container_nil _ rfl, ?_, ?_, ?_, ?_⟩
  · rw [GroupStatsSummary_nil _ rfl]
    simp
  · intro hn
    have hne := fetchNodeStats_valid node hn
    have hnw : nodeWrites node = [(node.NodeName, (fetchNodeStats node).1)] := by
      simp [nodeWrites, hne.1, hne.2]
    have hner : nodeErrors node = [] := by simp [nodeErrors, hne.1]
    refine ⟨⟨_, store_node _, ?_, ?_⟩, ?_⟩
    · simp [hnw, applyWrites]
    · intro k hk
      simp [hnw, applyWrites, GoMap.set_apply, hk]
    · rw [GroupStatsSummary_nil _ rfl]
      simp [hner]
  · intro hn
    have hne := fetchNodeStats_invalid node hn
    have hnw : nodeWrites node = [] := by simp [nodeWrites, hne]
    have hner : nodeErrors node = [Error.emptyNodeIdentifier] := by simp [nodeErrors, hne]
    constructor
    · rw [store_node, hnw]
      rfl
    · rw [GroupStatsSummary_nil _ rfl]
      simp [hner]
  · rw [GroupStatsSummary_pods _ [] rfl]
    by_cases hn : node.NodeName = ""
    · have hne := fetchNodeStats_invalid node hn
      simp [nodeErrors, hne, podErrors]
    · have hne := fetchNodeStats_valid node hn
      simp [nodeErrors, hne.1, podErrors]

/-! ## The entity-ID generators -/

theorem TrimPrefix_of_not_starts (r pre : String) (h : ∀ t, r ≠ pre ++ t) :
    TrimPrefix r pre = r := by
  unfold TrimPrefix
  have hp : ¬ pre.data.isPrefixOf r.data = true := by
    rw [List.isPrefixOf_iff_prefix]
    rintro ⟨t, ht⟩
    apply h (String.mk t)
    apply String.ext
    rw [String.data_append]
    exact ht.symm
  rw [if_neg hp]

/-- C15: the generator built by `FromRawGroupsEntityIDGenerator key` returns an
error, with the empty string, if and only if the store has no group under the
label, or that group has no entity under the raw key, or that entity has no
field `key`, or the value of the field is not a string; otherwise it returns the
stored string as it is with no error. -/
theorem entityID_from_field (key groupLabel rawEntityID : String) (g : RawGroups) :
    ((FromRawGroupsEntityIDGenerator key groupLabel rawEntityID g).2 ≠ none ↔
        (g groupLabel = none
          ∨ (∃ gl, g groupLabel = some gl ∧ gl rawEntityID = none)
          ∨ (∃ gl en, g groupLabel = some gl ∧ gl rawEntityID = some en ∧ en key = none)
          ∨ (∃ gl en v, g groupLabel = some gl ∧ gl rawEntityID = some en ∧ en key = some v
              ∧ ∀ s, v ≠ Value.str s)))
    ∧ ((FromRawGroupsEntityIDGenerator key groupLabel rawEntityID g).2 ≠ none →
        (FromRawGroupsEntityIDGenerator key groupLabel rawEntityID g).1 = "")
    ∧ ((FromRawGroupsEntityIDGenerator key groupLabel rawEntityID g).2 = none →
        ∃ gl en s, g groupLabel = some gl ∧ gl rawEntityID = some en
          ∧ en key = some (Value.str s)
          ∧ FromRawGroupsEntityIDGenerator key groupLabel rawEntityID g = (s, none)) := by
  unfold FromRawGroupsEntityIDGenerator RawGroups.field
  cases hg : g groupLabel with
  | none => simp
  | some gl =>
    cases he : gl rawEntityID with
    | none => simp [he]
    | some en =>
      cases hk : en key with
      | none => simp [he, hk]
      | some v =>
        cases v with
        | str s => simp [he, hk]
        | uint n => simp [he, hk]
        | nil => simp [he, hk]

/-- C16: the generator built by `FromRawEntityIDGroupEntityIDGenerator key`
returns an error, with the empty string, if and only if the field
store[label][r][key] is missing or the stripped string is empty; in every other
case it returns the stripped string with no error. The stripped string is r
trimmed of the formatted field value followed by "_": for a string value s it
is r without the leading s ++ "_", removed once, when r starts with it, and r
itself otherwise, so that a non-empty raw key which does not start with
s ++ "_" is returned unchanged without error. -/
theorem entityID_from_raw_key (key groupLabel r : String) (g : RawGroups) :
    ((FromRawEntityIDGroupEntityIDGenerator key groupLabel r g).2 ≠ none ↔
        (g.field groupLabel r key = none
          ∨ ∃ v, g.field groupLabel r key = some v ∧ TrimPrefix r (fmtS v ++ "_") = ""))
    ∧ ((FromRawEntityIDGroupEntityIDGenerator key groupLabel r g).2 ≠ none →
        (FromRawEntityIDGroupEntityIDGenerator key groupLabel r g).1 = "")
    ∧ (∀ v, g.field groupLabel r key = some v → TrimPrefix r (fmtS v ++ "_") ≠ "" →
        FromRawEntityIDGroupEntityIDGenerator key groupLabel r g
          = (TrimPrefix r (fmtS v ++ "_"), none))
    ∧ (∀ s t, r = s ++ "_" ++ t → TrimPrefix r (fmtS (Value.str s) ++ "_") = t)
    ∧ (∀ s, (∀ t, r ≠ s ++ "_" ++ t) → TrimPrefix r (fmtS (Value.str s) ++ "_") = r)
    ∧ (∀ s, g.field groupLabel r key = some (Value.str s) → (∀ t, r ≠ s ++ "_" ++ t) →
        r ≠ "" → FromRawEntityIDGroupEntityIDGenerator key groupLabel r g = (r, none)) := by
  have hgen : ∀ v, g.field groupLabel r key = some v →
      FromRawEntityIDGroupEntityIDGenerator key groupLabel r g =
        if TrimPrefix r (fmtS v ++ "_") = "" then ("", some Error.emptyGeneratedID)
        else (TrimPrefix r (fmtS v ++ "_"), none) := by
    intro v hv
    simp only [FromRawEntityIDGroupEntityIDGenerator, hv]
  refine ⟨?_, ?_, ?_, ?_, ?_, ?_⟩
  · cases hf : g.field groupLabel r key with
    | none => simp [FromRawEntityIDGroupEntityIDGenerator, hf]
    | some v =>
      rw [hgen v hf]
      by_cases hs : TrimPrefix r (fmtS v ++ "_") = "" <;> simp [hs]
  · cases hf : g.field groupLabel r key with
    | none => simp [FromRawEntityIDGroupEntityIDGenerator, hf]
    | some v =>
      rw [hgen v hf]
      by_cases hs : TrimPrefix r (fmtS v ++ "_") = "" <;> simp [hs]
  · intro v hv hs
    rw [hgen v hv, if_neg hs]
  · intro s t hr
    rw [hr]
    exact TrimPrefix_append (s ++ "_") t
  · intro s hno
    exact TrimPrefix_of_not_starts r (s ++ "_") hno
  · intro s hv hno hr
    have ht : TrimPrefix r (fmtS (Value.str s) ++ "_") = r :=
      TrimPrefix_of_not_starts r (s ++ "_") hno
    rw [hgen _ hv, ht, if_neg hr]

/-! ## Counting the errors -/

theorem containerErrors_length (cs : List ContainerStats) :
    (containerErrors cs).length = cs.countP (fun c => decide (c.Name = "")) := by
  induction cs with
  | nil => rfl
  | cons c cs ih =>
    by_cases h : c.Name = ""
    · simp [containerErrors, fetchContainerStats_invalid c h, h, ih]
    · simp [containerErrors, (fetchContainerStats_err c).2 h, h, ih]

theorem podErrors_length (ps : List PodStats) :
    (podErrors ps).length = expectedPodErrorCount ps := by
  induction ps with
  | nil => rfl
  | cons p ps ih =>
    unfold expectedPodErrorCount at ih ⊢
    by_cases h : p.PodRef.Name = "" ∨ p.PodRef.Namespace = ""
    · simp only [podErrors, fetchPodStats_invalid p h, List.length_cons, ih, List.countP_cons,
        List.map_cons, List.sum_cons, h, decide_True, decide_False, not_true_eq_false,
        Bool.false_and, if_true]
      simp
      omega
    · have hv : p.PodRef.Name ≠ "" ∧ p.PodRef.Namespace ≠ "" := by
        simpa [not_or] using h
      have he := (fetchPodStats_err p).2 hv
      cases hc : p.Containers with
      | none =>
        simp only [podErrors, he, hc, List.length_cons, ih, List.countP_cons, List.map_cons,
          List.sum_cons, h, decide_True, decide_False, not_false_eq_true, Bool.true_and,
          Option.isNone_none, if_false]
        simp
        omega
      | some cs =>
        simp only [podErrors, he, hc, List.length_append, containerErrors_length, ih,
          List.countP_cons, List.map_cons, List.sum_cons, h, decide_True, decide_False,
          not_false_eq_true, Bool.true_and, Option.isNone_some, if_false]
        simp
        omega

/-- C18: the number of errors returned by `GroupStatsSummary` is 1 for a node
without a name (0 otherwise) plus: 1 for a nil pod list, and otherwise the
number of pods with an empty name or namespace, plus the number of valid pods
whose container list is nil, plus the number of containers with an empty name
inside valid pods with a container list (`expectedErrorCount`; the containers of
a malformed pod count for nothing). A valid pod with a nil container list still
has its entry in the group "pod". -/
theorem error_count (s : Summary) :
    (GroupStatsSummary s).2.length = expectedErrorCount s
    ∧ ∀ ps p, s.Pods = some ps → p ∈ ps → p.PodRef.Name ≠ "" → p.PodRef.Namespace ≠ "" →
        p.Containers = none →
        hasKey (GroupStatsSummary s).1 "pod" (p.PodRef.Namespace ++ "_" ++ p.PodRef.Name) := by
  constructor
  · have hnode : (nodeErrors s.Node).length = if s.Node.NodeName = "" then 1 else 0 := by
      by_cases hn : s.Node.NodeName = ""
      · simp [nodeErrors, fetchNodeStats_invalid s.Node hn, hn]
      · simp [nodeErrors, (fetchNodeStats_valid s.Node hn).1, hn]
    unfold expectedErrorCount
    cases hps : s.Pods with
    | none =>
      rw [GroupStatsSummary_nil s hps]
      simp [hnode]
    | some ps =>
      rw [GroupStatsSummary_pods s ps hps]
      simp [hnode, podErrors_length]
  · intro ps p hps hp h1 h2 _
    have hmem : ∃ w ∈ podWrites ps, w.1 = podKey p :=
      ⟨(podKey p, (fetchPodStats p).1), (mem_podWrites ps _).2 ⟨p, hp, ⟨h1, h2⟩, rfl⟩, rfl⟩
    obtain ⟨w, _, _, hv⟩ := applyWrites_of_mem (podWrites ps) GoMap.empty (podKey p) hmem
    exact ⟨_, _, store_pod s ps hps, hv⟩

/-- Witness of C18: `summaryMixed` has a node without a name, one malformed pod,
one valid pod with a nil container list and one container without a name in a
valid pod: four errors, and the pod with the nil container list is in the group
"pod" under "ns_r". -/
theorem error_count_witness :
    (GroupStatsSummary summaryMixed).2.length = 4
    ∧ hasKey (GroupStatsSummary summaryMixed).1 "pod" ("ns" ++ "_" ++ "r") :=
  ⟨(error_count summaryMixed).1.trans (by decide),
    (error_count summaryMixed).2 [podSample, podMalformed, podNoContainers] podNoContainers rfl
      (by decide) (by decide) (by decide) rfl⟩

/-! ## Keys and errors as functions of the identifying fields -/

theorem hasKey_of_writes (g : RawGroups) (label k : String) (ws : List (String × RawMetrics))
    (h : g label = some (applyWrites GoMap.empty ws)) :
    hasKey g label k ↔ k ∈ ws.map Prod.fst := by
  unfold hasKey
  rw [h]
  constructor
  · rintro ⟨grp, m, hg, hm⟩
    rw [← Option.some.inj hg] at hm
    obtain ⟨w, hw, hk, _⟩ := applyWrites_empty_some ws k m hm
    exact List.mem_map.2 ⟨w, hw, hk⟩
  · intro hk
    obtain ⟨w, hw, hwk⟩ := List.mem_map.1 hk
    obtain ⟨x, _, _, hv⟩ := applyWrites_of_mem ws GoMap.empty k ⟨w, hw, hwk⟩
    exact ⟨_, _, rfl, hv⟩

theorem hasKey_of_empty (g : RawGroups) (label k : String) (h : g label = some GoMap.empty) :
    ¬ hasKey g label k := by
  rintro ⟨grp, m, hg, hm⟩
  rw [h] at hg
  rw [← Option.some.inj hg] at hm
  simp at hm

theorem podWrites_keys (ps : List PodStats) :
    (podWrites ps).map Prod.fst = podKeysOfSkeleton (ps.map podSkeleton) := by
  induction ps with
  | nil => rfl
  | cons p ps ih =>
    by_cases h : p.PodRef.Name = "" ∨ p.PodRef.Namespace = ""
    · simp [podWrites, fetchPodStats_invalid p h, podKeysOfSkeleton, podSkeleton, h, ih]
    · have hv : p.PodRef.Name ≠ "" ∧ p.PodRef.Namespace ≠ "" := by
        simpa [not_or] using h
      simp [podWrites, (fetchPodStats_err p).2 hv, podKeysOfSkeleton, podSkeleton, h, ih,
        fetchPodStats_key p hv.1 hv.2, podKey]

theorem containerWrites_keys (p : PodStats) (h1 : p.PodRef.Name ≠ "")
    (h2 : p.PodRef.Namespace ≠ "") (cs : List ContainerStats) :
    (containerWrites (fetchPodStats p).1 cs).map Prod.fst
      = containerKeysOfNames p.PodRef.Namespace p.PodRef.Name (cs.map (fun c => c.Name)) := by
  induction cs with
  | nil => rfl
  | cons c cs ih =>
    by_cases h : c.Name = ""
    · simp [containerWrites, fetchContainerStats_invalid c h, containerKeysOfNames, h, ih]
    · simp [containerWrites, (fetchContainerStats_err c).2 h, containerKeysOfNames, h, ih,
        containerEntry_key p c h1 h2 h, containerKey]

theorem allContainerWrites_keys (ps : List PodStats) :
    (allContainerWrites ps).map Prod.fst = containerKeysOfSkeleton (ps.map podSkeleton) := by
  induction ps with
  | nil => rfl
  | cons p ps ih =>
    by_cases h : p.PodRef.Name = "" ∨ p.PodRef.Namespace = ""
    · simp [allContainerWrites, fetchPodStats_invalid p h, containerKeysOfSkeleton, podSkeleton,
        h, ih]
    · have hv : p.PodRef.Name ≠ "" ∧ p.PodRef.Namespace ≠ "" := by
        simpa [not_or] using h
      cases hc : p.Containers with
      | none =>
        simp [allContainerWrites, (fetchPodStats_err p).2 hv, containerKeysOfSkeleton,
          podSkeleton, h, hc, ih]
      | some cs =>
        simp [allContainerWrites, (fetchPodStats_err p).2 hv, containerKeysOfSkeleton,
          podSkeleton, h, hc, ih, containerWrites_keys p hv.1 hv.2]

theorem containerErrors_names (cs : List ContainerStats) :
    containerErrors cs = containerErrorsOfNames (cs.map (fun c => c.Name)) := by
  induction cs with
  | nil => rfl
  | cons c cs ih =>
    by_cases h : c.Name = ""
    · simp [containerErrors, fetchContainerStats_invalid c h, containerErrorsOfNames, h, ih]
    · simp [containerErrors, (fetchContainerStats_err c).2 h, containerErrorsOfNames, h, ih]

theorem podErrors_skeleton (ps : List PodStats) :
    podErrors ps = podErrorsOfSkeleton (ps.map podSkeleton) := by
  induction ps with
  | nil => rfl
  | cons p ps ih =>
    by_cases h : p.PodRef.Name = "" ∨ p.PodRef.Namespace = ""
    · simp [podErrors, fetchPodStats_invalid p h, podErrorsOfSkeleton, podSkeleton, h, ih]
    · have hv : p.PodRef.Name ≠ "" ∧ p.PodRef.Namespace ≠ "" := by
        simpa [not_or] using h
      cases hc : p.Containers with
      | none =>
        simp [podErrors, (fetchPodStats_err p).2 hv, podErrorsOfSkeleton, podSkeleton, h, hc, ih]
      | some cs =>
        simp [podErrors, (fetchPodStats_err p).2 hv, podErrorsOfSkeleton, podSkeleton, h, hc, ih,
          containerErrors_names]

theorem nodeWrites_keys (n : NodeStats) :
    (nodeWrites n).map Prod.fst = if n.NodeName = "" then [] else [n.NodeName] := by
  by_cases h : n.NodeName = ""
  · simp [nodeWrites, fetchNodeStats_invalid n h, h]
  · simp [nodeWrites, (fetchNodeStats_valid n h).1, (fetchNodeStats_valid n h).2, h]

theorem nodeErrors_name (n : NodeStats) :
    nodeErrors n = if n.NodeName = "" then [Error.emptyNodeIdentifier] else [] := by
  by_cases h : n.NodeName = ""
  · simp [nodeErrors, fetchNodeStats_invalid n h, h]
  · simp [nodeErrors, (fetchNodeStats_valid n h).1, h]

/-- C17: two summaries with the same identifying fields (node name, presence of
the pod list and of each container list, pod names, pod namespaces and container
names in order), whatever their metrics, give stores with the same entity keys
in every group and error lists of the same length. -/
theorem keys_depend_on_identifiers (s1 s2 : Summary)
    (h : summarySkeleton s1 = summarySkeleton s2) :
    (∀ label k, hasKey (GroupStatsSummary s1).1 label k ↔ hasKey (GroupStatsSummary s2).1 label k)
    ∧ (GroupStatsSummary s1).2.length = (GroupStatsSummary s2).2.length := by
  have hname : s1.Node.NodeName = s2.Node.NodeName := congrArg Prod.fst h
  have hpods : s1.Pods.map (fun ps => ps.map podSkeleton)
      = s2.Pods.map (fun ps => ps.map podSkeleton) := congrArg Prod.snd h
  have hnodeKeys : ∀ k, hasKey (GroupStatsSummary s1).1 "node" k
      ↔ hasKey (GroupStatsSummary s2).1 "node" k := by
    intro k
    rw [hasKey_of_writes _ "node" k _ (store_node s1), hasKey_of_writes _ "node" k _ (store_node s2),
      nodeWrites_keys, nodeWrites_keys, hname]
  have hother : ∀ label k, label ≠ "node" → label ≠ "pod" → label ≠ "container" →
      (hasKey (GroupStatsSummary s1).1 label k ↔ hasKey (GroupStatsSummary s2).1 label k) := by
    intro label k hn hp hc
    have e1 : (GroupStatsSummary s1).1 label = none := by
      by_contra hne
      rcases (store_labels s1 label).1 hne with h | h | h
      · exact hn h
      · exact hp h
      · exact hc h
    have e2 : (GroupStatsSummary s2).1 label = none := by
      by_contra hne
      rcases (store_labels s2 label).1 hne with h | h | h
      · exact hn h
      · exact hp h
      · exact hc h
    unfold hasKey
    simp [e1, e2]
  cases hp1 : s1.Pods with
  | none =>
    cases hp2 : s2.Pods with
    | some ps2 => simp [hp1, hp2] at hpods
    | none =>
      constructor
      · intro label k
        by_cases hn : label = "node"
        · rw [hn]
          exact hnodeKeys k
        · by_cases hp : label = "pod"
          · rw [hp]
            exact iff_of_false (hasKey_of_empty _ _ k (store_pod_nil s1 hp1))
              (hasKey_of_empty _ _ k (store_pod_nil s2 hp2))
          · by_cases hc : label = "container"
            · rw [hc]
              exact iff_of_false (hasKey_of_empty _ _ k (store_container_nil s1 hp1))
                (hasKey_of_empty _ _ k (store_container_nil s2 hp2))
            · exact hother label k hn hp hc
      · rw [GroupStatsSummary_nil s1 hp1, GroupStatsSummary_nil s2 hp2, nodeErrors_name,
          nodeErrors_name, hname]
  | some ps1 =>
    cases hp2 : s2.Pods with
    | none => simp [hp1, hp2] at hpods
    | some ps2 =>
      have hsk : ps1.map podSkeleton = ps2.map podSkeleton := by
        simpa [hp1, hp2] using hpods
      constructor
      · intro label k
        by_cases hn : label = "node"
        · rw [hn]
          exact hnodeKeys k
        · by_cases hp : label = "pod"
          · rw [hp, hasKey_of_writes _ "pod" k _ (store_pod s1 ps1 hp1),
              hasKey_of_writes _ "pod" k _ (store_pod s2 ps2 hp2), podWrites_keys,
              podWrites_keys, hsk]
          · by_cases hc : label = "container"
            · rw [hc, hasKey_of_writes _ "container" k _ (store_container s1 ps1 hp1),
                hasKey_of_writes _ "container" k _ (store_container s2 ps2 hp2),
                allContainerWrites_keys, allContainerWrites_keys, hsk]
            · exact hother label k hn hp hc
      · rw [GroupStatsSummary_pods s1 ps1 hp1, GroupStatsSummary_pods s2 ps2 hp2,
          nodeErrors_name, nodeErrors_name, hname, podErrors_skeleton, podErrors_skeleton, hsk]

/-- Witness of C17: the sample summary and the same records with other
metrics. -/
theorem keys_depend_on_identifiers_witness :
    (∀ label k, hasKey (GroupStatsSummary summarySample).1 label k
        ↔ hasKey (GroupStatsSummary summarySampleBare).1 label k)
    ∧ (GroupStatsSummary summarySample).2.length
        = (GroupStatsSummary summarySampleBare).2.length :=
  keys_depend_on_identifiers summarySample summarySampleBare (by decide)

/-! ## Key sets and the last write -/

theorem containerEntry_snd (p : PodStats) (c : ContainerStats) (h1 : p.PodRef.Name ≠ "")
    (h2 : p.PodRef.Namespace ≠ "") :
    (containerEntry (fetchPodStats p).1 c).2
      = ((fetchContainerStats c).1.set "podName" (Value.str p.PodRef.Name)).set "namespace"
          (Value.str p.PodRef.Namespace) := by
  have hns := fetchPodStats_namespace p h1 h2
  have hname := fetchPodStats_podName p h1 h2
  simp [containerEntry, GoMap.get, hns, hname]

/-- C19: for a summary with a pod list, the keys of the group "pod" are exactly
the raw keys p.namespace ++ "_" ++ p.name of the pods p of the list with
non-empty name and namespace, and the keys of the group "container" are exactly
the raw keys p.namespace ++ "_" ++ p.name ++ "_" ++ c.name of the containers c
with a non-empty name in the container list of such a pod; and the entry stored
under a key is the one of the record that produces this key last in the order of
the traversal (pods in order, the containers of a pod in order). -/
theorem group_key_sets (s : Summary) (ps : List PodStats) (h : s.Pods = some ps) :
    (∀ k, hasKey (GroupStatsSummary s).1 "pod" k ↔
        ∃ p ∈ ps, (p.PodRef.Name ≠ "" ∧ p.PodRef.Namespace ≠ "")
          ∧ k = p.PodRef.Namespace ++ "_" ++ p.PodRef.Name)
    ∧ (∀ k, hasKey (GroupStatsSummary s).1 "container" k ↔
        ∃ p ∈ ps, (p.PodRef.Name ≠ "" ∧ p.PodRef.Namespace ≠ "")
          ∧ ∃ cs, p.Containers = some cs ∧ ∃ c ∈ cs, c.Name ≠ ""
            ∧ k = p.PodRef.Namespace ++ "_" ++ p.PodRef.Name ++ "_" ++ c.Name)
    ∧ (∀ before p after, ps = before ++ p :: after →
        p.PodRef.Name ≠ "" → p.PodRef.Namespace ≠ "" →
        (∀ q ∈ after, q.PodRef.Name ≠ "" → q.PodRef.Namespace ≠ "" →
          q.PodRef.Namespace ++ "_" ++ q.PodRef.Name
            ≠ p.PodRef.Namespace ++ "_" ++ p.PodRef.Name) →
        ∃ grp, (GroupStatsSummary s).1 "pod" = some grp
          ∧ grp (p.PodRef.Namespace ++ "_" ++ p.PodRef.Name) = some (fetchPodStats p).1)
    ∧ (∀ before p after cs1 c cs2, ps = before ++ p :: after →
        p.PodRef.Name ≠ "" → p.PodRef.Namespace ≠ "" →
        p.Containers = some (cs1 ++ c :: cs2) → c.Name ≠ "" →
        (∀ d ∈ cs2, d.Name ≠ "" →
          p.PodRef.Namespace ++ "_" ++ p.PodRef.Name ++ "_" ++ d.Name
            ≠ p.PodRef.Namespace ++ "_" ++ p.PodRef.Name ++ "_" ++ c.Name) →
        (∀ q ∈ after, q.PodRef.Name ≠ "" → q.PodRef.Namespace ≠ "" →
          ∀ ds, q.Containers = some ds → ∀ d ∈ ds, d.Name ≠ "" →
            q.PodRef.Namespace ++ "_" ++ q.PodRef.Name ++ "_" ++ d.Name
              ≠ p.PodRef.Namespace ++ "_" ++ p.PodRef.Name ++ "_" ++ c.Name) →
        ∃ grp, (GroupStatsSummary s).1 "container" = some grp
          ∧ grp (p.PodRef.Namespace ++ "_" ++ p.PodRef.Name ++ "_" ++ c.Name)
            = some (((fetchContainerStats c).1.set "podName" (Value.str p.PodRef.Name)).set
                "namespace" (Value.str p.PodRef.Namespace))) := by
  refine ⟨?_, ?_, ?_, ?_⟩
  · intro k
    rw [hasKey_of_writes _ "pod" k _ (store_pod s ps h), List.mem_map]
    constructor
    · rintro ⟨w, hw, hk⟩
      obtain ⟨p, hp, hv, hwe⟩ := (mem_podWrites ps w).1 hw
      subst hwe
      exact ⟨p, hp, hv, hk.symm⟩
    · rintro ⟨p, hp, hv, hk⟩
      exact ⟨(podKey p, (fetchPodStats p).1), (mem_podWrites ps _).2 ⟨p, hp, hv, rfl⟩, hk.symm⟩
  · intro k
    rw [hasKey_of_writes _ "container" k _ (store_container s ps h), List.mem_map]
    constructor
    · rintro ⟨w, hw, hk⟩
      obtain ⟨p, hp, hv, cs, hcs, c, hc, hcn, hwe⟩ := (mem_allContainerWrites ps w).1 hw
      subst hwe
      rw [containerEntry_key p c hv.1 hv.2 hcn] at hk
      exact ⟨p, hp, hv, cs, hcs, c, hc, hcn, hk.symm⟩
    · rintro ⟨p, hp, hv, cs, hcs, c, hc, hcn, hk⟩
      refine ⟨containerEntry (fetchPodStats p).1 c,
        (mem_allContainerWrites ps _).2 ⟨p, hp, hv, cs, hcs, c, hc, hcn, rfl⟩, ?_⟩
      rw [containerEntry_key p c hv.1 hv.2 hcn, hk]
      rfl
  · intro before p after hps h1 h2 hlast
    refine ⟨_, store_pod s ps h, ?_⟩
    have he := (fetchPodStats_err p).2 ⟨h1, h2⟩
    have hw : podWrites ps
        = podWrites before ++ (podKey p, (fetchPodStats p).1) :: podWrites after := by
      rw [hps, podWrites_append]
      simp [podWrites, he, fetchPodStats_key p h1 h2]
    rw [hw]
    apply applyWrites_last GoMap.empty (podWrites before) (podWrites after)
      (podKey p, (fetchPodStats p).1)
    intro x hx
    obtain ⟨q, hq, hqv, hxe⟩ := (mem_podWrites after x).1 hx
    subst hxe
    exact hlast q hq hqv.1 hqv.2
  · intro before p after cs1 c cs2 hps h1 h2 hcs hcn hlast1 hlast2
    refine ⟨_, store_container s ps h, ?_⟩
    have he := (fetchPodStats_err p).2 ⟨h1, h2⟩
    have hce := (fetchContainerStats_err c).2 hcn
    have hw : allContainerWrites ps
        = (allContainerWrites before ++ containerWrites (fetchPodStats p).1 cs1)
          ++ containerEntry (fetchPodStats p).1 c
            :: (containerWrites (fetchPodStats p).1 cs2 ++ allContainerWrites after) := by
      rw [hps, allContainerWrites_append]
      simp [allContainerWrites, he, hcs, containerWrites_append, containerWrites, hce]
    have hkey := containerEntry_key p c h1 h2 hcn
    have hval := containerEntry_snd p c h1 h2
    have hgoal := applyWrites_last GoMap.empty
      (allContainerWrites before ++ containerWrites (fetchPodStats p).1 cs1)
      (containerWrites (fetchPodStats p).1 cs2 ++ allContainerWrites after)
      (containerEntry (fetchPodStats p).1 c)
      (by
        intro x hx
        rw [hkey]
        rcases List.mem_append.1 hx with hx1 | hx2
        · obtain ⟨d, hd, hdn, hxe⟩ := (mem_containerWrites _ cs2 x).1 hx1
          subst hxe
          rw [containerEntry_key p d h1 h2 hdn]
          exact hlast1 d hd hdn
        · obtain ⟨q, hq, hqv, ds, hds, d, hd, hdn, hxe⟩ := (mem_allContainerWrites after x).1 hx2
          subst hxe
          rw [containerEntry_key q d hqv.1 hqv.2 hdn]
          exact hlast2 q hq hqv.1 hqv.2 ds hds d hd hdn)
    rw [hkey, hval, ← hw] at hgoal
    exact hgoal

/-- Witness of C19: the sample summary has the pod key "ns_p"; in
`summaryPodClash` the key "a_b_c" is produced by both pods and holds the entry
of the second one. -/
theorem group_key_sets_witness :
    hasKey (GroupStatsSummary summarySample).1 "pod" ("ns" ++ "_" ++ "p")
    ∧ ∃ grp, (GroupStatsSummary summaryPodClash).1 "pod" = some grp
        ∧ grp ("a" ++ "_" ++ "b_c") = some (fetchPodStats podClashSecond).1 :=
  ⟨((group_key_sets summarySample [podSample] rfl).1 ("ns" ++ "_" ++ "p")).2
      ⟨podSample, List.mem_singleton.2 rfl, ⟨by decide, by decide⟩, rfl⟩,
    (group_key_sets summaryPodClash [podClashFirst, podClashSecond] rfl).2.2.1
      [podClashFirst] podClashSecond [] rfl (by decide) (by decide)
      (fun q hq => absurd hq (List.not_mem_nil q))⟩

/-! ## The entity-type generator on the store of the grouper -/

theorem store_pod_entry_namespace (s : Summary) (grp : GoMap RawMetrics) (k : String)
    (e : RawMetrics) (hg : (GroupStatsSummary s).1 "pod" = some grp) (he : grp k = some e) :
    ∃ ns, e "namespace" = some (Value.str ns) := by
  cases hps : s.Pods with
  | none =>
    rw [store_pod_nil s hps] at hg
    rw [← Option.some.inj hg] at he
    simp at he
  | some ps =>
    rw [store_pod s ps hps] at hg
    rw [← Option.some.inj hg] at he
    obtain ⟨w, hw, _, hv⟩ := applyWrites_empty_some (podWrites ps) k e he
    obtain ⟨p, _, hpv, hwe⟩ := (mem_podWrites ps w).1 hw
    subst hwe
    exact ⟨p.PodRef.Namespace, by rw [← hv]; exact fetchPodStats_namespace p hpv.1 hpv.2⟩

theorem store_container_entry_namespace (s : Summary) (grp : GoMap RawMetrics) (k : String)
    (e : RawMetrics) (hg : (GroupStatsSummary s).1 "container" = some grp)
    (he : grp k = some e) : ∃ ns, e "namespace" = some (Value.str ns) := by
  cases hps : s.Pods with
  | none =>
    rw [store_container_nil s hps] at hg
    rw [← Option.some.inj hg] at he
    simp at he
  | some ps =>
    rw [store_container s ps hps] at hg
    rw [← Option.some.inj hg] at he
    obtain ⟨w, hw, _, hv⟩ := applyWrites_empty_some (allContainerWrites ps) k e he
    obtain ⟨p, _, hpv, cs, _, c, _, _, hwe⟩ := (mem_allContainerWrites ps w).1 hw
    subst hwe
    exact ⟨p.PodRef.Namespace, by rw [← hv]; exact containerEntry_namespace p c hpv.1 hpv.2⟩

/-- C20: on the store g returned by `GroupStatsSummary`, for every entity key k
of the group "pod" or of the group "container", the generator built by
`FromRawGroupsEntityTypeGenerator "namespace" d` applied to (that label, k, g,
c) returns "k8s:" ++ c ++ ":" ++ ns ++ ":pod" with no error, where ns is the
string under "namespace" in the stored entry; the default value d is not
used. -/
theorem entityType_on_grouper_store (s : Summary) (clusterName defaultValue groupLabel k : String)
    (grp : GoMap RawMetrics) (e : RawMetrics)
    (hl : groupLabel = "pod" ∨ groupLabel = "container")
    (hg : (GroupStatsSummary s).1 groupLabel = some grp) (he : grp k = some e) :
    ∃ ns, e "namespace" = some (Value.str ns)
      ∧ FromRawGroupsEntityTypeGenerator "namespace" defaultValue groupLabel k
          (GroupStatsSummary s).1 clusterName
        = ("k8s:" ++ clusterName ++ ":" ++ ns ++ ":pod", none) := by
  have hns : ∃ ns, e "namespace" = some (Value.str ns) := by
    rcases hl with hl | hl
    · rw [hl] at hg
      exact store_pod_entry_namespace s grp k e hg he
    · rw [hl] at hg
      exact store_container_entry_namespace s grp k e hg he
  obtain ⟨ns, hns⟩ := hns
  have h1 : groupLabel ≠ "namespace" := by
    rcases hl with hl | hl <;> rw [hl] <;> decide
  have h2 : groupLabel ≠ "node" := by
    rcases hl with hl | hl <;> rw [hl] <;> decide
  have hcat : categoryLabel groupLabel = "pod" := by
    rcases hl with hl | hl <;> rw [hl] <;> decide
  have hfield : (GroupStatsSummary s).1.field groupLabel k "namespace"
      = some (Value.str ns) := by
    simp only [RawGroups.field, hg, he, hns]
  refine ⟨ns, hns, ?_⟩
  rw [entityType_found "namespace" defaultValue groupLabel k clusterName ns _ h1 h2 hfield, hcat]
  have hs : "k8s:" ++ clusterName ++ ":" ++ ns ++ ":" ++ "pod"
      = "k8s:" ++ clusterName ++ ":" ++ ns ++ ":pod" := by
    rw [String.append_assoc ("k8s:" ++ clusterName ++ ":" ++ ns) ":" "pod"]
    rfl
  rw [hs]

/-- Witness of C20: the pod "fluentd-elasticsearch-jnqb7" of the namespace
"kube-system" in the cluster "playground" has the type
"k8s:playground:kube-system:pod", and so has its container. -/
theorem entityType_on_grouper_store_witness :
    (∃ ns, (fetchPodStats podKube).1 "namespace"
          = some (Value.str ns)
        ∧ FromRawGroupsEntityTypeGenerator "namespace" "unknown" "pod"
            "kube-system_fluentd-elasticsearch-jnqb7" (GroupStatsSummary summaryKubeSystem).1
            "playground"
          = ("k8s:" ++ "playground" ++ ":" ++ ns ++ ":pod", none))
    ∧ FromRawGroupsEntityTypeGenerator "namespace" "unknown" "pod"
        "kube-system_fluentd-elasticsearch-jnqb7" (GroupStatsSummary summaryKubeSystem).1
        "playground" = ("k8s:playground:kube-system:pod", none)
    ∧ FromRawGroupsEntityTypeGenerator "namespace" "unknown" "container"
        "kube-system_fluentd-elasticsearch-jnqb7_c" (GroupStatsSummary summaryKubeSystem).1
        "playground" = ("k8s:playground:kube-system:pod", none) :=
  ⟨entityType_on_grouper_store summaryKubeSystem "playground" "unknown" "pod"
      "kube-system_fluentd-elasticsearch-jnqb7"
      (applyWrites GoMap.empty (podWrites [podKube]))
      (fetchPodStats podKube).1 (Or.inl rfl)
      (store_pod summaryKubeSystem [podKube] rfl) rfl,
    by decide, by decide⟩

/-! ## Recovering the names from the raw keys -/

theorem applyWrites_split {V : Type} (m : GoMap V) (ws1 ws2 : List (String × V))
    (w : String × V) (P : V → Prop) (hw : P w.2) (hlater : ∀ x ∈ ws2, x.1 = w.1 → P x.2) :
    ∃ v, applyWrites m (ws1 ++ w :: ws2) w.1 = some v ∧ P v := by
  rw [applyWrites_append, applyWrites_cons]
  by_cases hex : ∃ x ∈ ws2, x.1 = w.1
  · obtain ⟨x, hx, hk, hv⟩ := applyWrites_of_mem ws2 ((applyWrites m ws1).set w.1 w.2) w.1 hex
    exact ⟨x.2, hv, hlater x hx hk⟩
  · have hno : ∀ x ∈ ws2, x.1 ≠ w.1 := fun x hx hk => hex ⟨x, hx, hk⟩
    rw [applyWrites_of_not_mem ws2 _ w.1 hno]
    exact ⟨w.2, GoMap.set_same _ _ _, hw⟩

/-- C2 as amended: for every pod p of the pod list with non-empty name and
namespace, the store has an entry in group "pod" under the raw key
p.namespace ++ "_" ++ p.name; and, at any place of p in the list, when no pod
that comes after it, with non-empty name and namespace and the same raw key, has
another namespace, the generator `FromRawEntityIDGroupEntityIDGenerator
"namespace"` applied to ("pod", that key, the store) returns exactly p.name with
no error. -/
theorem pod_key_recovers_name (s : Summary) (ps : List PodStats) (p : PodStats)
    (hps : s.Pods = some ps) (hp : p ∈ ps)
    (h1 : p.PodRef.Name ≠ "") (h2 : p.PodRef.Namespace ≠ "") :
    (∃ grp m, (GroupStatsSummary s).1 "pod" = some grp
        ∧ grp (p.PodRef.Namespace ++ "_" ++ p.PodRef.Name) = some m)
    ∧ ∀ before after, ps = before ++ p :: after →
        (∀ q ∈ after, q.PodRef.Name ≠ "" → q.PodRef.Namespace ≠ "" →
          q.PodRef.Namespace ++ "_" ++ q.PodRef.Name
            = p.PodRef.Namespace ++ "_" ++ p.PodRef.Name →
          q.PodRef.Namespace = p.PodRef.Namespace) →
        FromRawEntityIDGroupEntityIDGenerator "namespace" "pod"
          (p.PodRef.Namespace ++ "_" ++ p.PodRef.Name) (GroupStatsSummary s).1
          = (p.PodRef.Name, none) := by
  constructor
  · have hmem : ∃ w ∈ podWrites ps, w.1 = podKey p :=
      ⟨(podKey p, (fetchPodStats p).1), (mem_podWrites ps _).2 ⟨p, hp, ⟨h1, h2⟩, rfl⟩, rfl⟩
    obtain ⟨w, _, _, hv⟩ := applyWrites_of_mem (podWrites ps) GoMap.empty (podKey p) hmem
    exact ⟨_, _, store_pod s ps hps, hv⟩
  · intro before after hsplit hlater
    have he := (fetchPodStats_err p).2 ⟨h1, h2⟩
    have hw : podWrites ps
        = podWrites before ++ (podKey p, (fetchPodStats p).1) :: podWrites after := by
      rw [hsplit, podWrites_append]
      simp [podWrites, he, fetchPodStats_key p h1 h2]
    obtain ⟨m, hm, hns⟩ := applyWrites_split GoMap.empty (podWrites before) (podWrites after)
      (podKey p, (fetchPodStats p).1)
      (fun e => e "namespace" = some (Value.str p.PodRef.Namespace))
      (fetchPodStats_namespace p h1 h2)
      (by
        intro x hx hk
        obtain ⟨q, hq, hqv, hxe⟩ := (mem_podWrites after x).1 hx
        subst hxe
        have hqns : q.PodRef.Namespace = p.PodRef.Namespace := hlater q hq hqv.1 hqv.2 hk
        show (fetchPodStats q).1 "namespace" = some (Value.str p.PodRef.Namespace)
        rw [fetchPodStats_namespace q hqv.1 hqv.2, hqns])
    rw [← hw] at hm
    have hfield : (GroupStatsSummary s).1.field "pod" (podKey p) "namespace"
        = some (Value.str p.PodRef.Namespace) := by
      simp only [RawGroups.field, store_pod s ps hps]
      show (match applyWrites GoMap.empty (podWrites ps) (podKey p) with
        | none => none
        | some en => en "namespace") = some (Value.str p.PodRef.Namespace)
      rw [hm]
      exact hns
    have hkey : p.PodRef.Namespace ++ "_" ++ p.PodRef.Name = podKey p := rfl
    rw [hkey]
    simp only [FromRawEntityIDGroupEntityIDGenerator, hfield, fmtS]
    simp only [podKey, TrimPrefix_append, h1, if_false]

/-- Witness of C2 as amended, on the two pods of `summaryPodClash`, which share
the raw key "a_b_c": the first pod has its key in the store, and for the second
pod, which comes last, the generator returns its name "b_c". -/
theorem pod_key_recovers_name_witness :
    (∃ grp m, (GroupStatsSummary summaryPodClash).1 "pod" = some grp
        ∧ grp ("a_b" ++ "_" ++ "c") = some m)
    ∧ FromRawEntityIDGroupEntityIDGenerator "namespace" "pod" ("a" ++ "_" ++ "b_c")
        (GroupStatsSummary summaryPodClash).1 = ("b_c", none) :=
  ⟨(pod_key_recovers_name summaryPodClash [podClashFirst, podClashSecond] podClashFirst rfl
      (List.mem_cons_self _ _) (by decide) (by decide)).1,
    (pod_key_recovers_name summaryPodClash [podClashFirst, podClashSecond] podClashSecond rfl
      (List.mem_cons_of_mem _ (List.mem_singleton.2 rfl)) (by decide) (by decide)).2
      [podClashFirst] [] rfl (fun q hq => absurd hq (List.not_mem_nil q))⟩

/-- C3 as amended: for every container c with non-empty name in the non-nil
container list of a pod p of the pod list with non-empty name and namespace, the
store has an entry in group "container" under the raw key
p.namespace ++ "_" ++ p.name ++ "_" ++ c.name; and, at any place of p in the pod
list and of c in the container list, when no container that is extracted after
it (later in the list of p, or in a pod that comes after p) under the same raw
key has another name, the generator `FromRawGroupsEntityIDGenerator
"containerName"` applied to ("container", that key, the store) returns exactly
c.name with no error. -/
theorem container_key_recovers_name (s : Summary) (ps : List PodStats) (p : PodStats)
    (cs : List ContainerStats) (c : ContainerStats)
    (hps : s.Pods = some ps) (hp : p ∈ ps)
    (h1 : p.PodRef.Name ≠ "") (h2 : p.PodRef.Namespace ≠ "")
    (hcs : p.Containers = some cs) (hc : c ∈ cs) (h3 : c.Name ≠ "") :
    (∃ grp m, (GroupStatsSummary s).1 "container" = some grp
        ∧ grp (p.PodRef.Namespace ++ "_" ++ p.PodRef.Name ++ "_" ++ c.Name) = some m)
    ∧ ∀ before after cs1 cs2, ps = before ++ p :: after → cs = cs1 ++ c :: cs2 →
        (∀ d ∈ cs2, d.Name ≠ "" →
          p.PodRef.Namespace ++ "_" ++ p.PodRef.Name ++ "_" ++ d.Name
            = p.PodRef.Namespace ++ "_" ++ p.PodRef.Name ++ "_" ++ c.Name →
          d.Name = c.Name) →
        (∀ q ∈ after, q.PodRef.Name ≠ "" → q.PodRef.Namespace ≠ "" →
          ∀ ds, q.Containers = some ds → ∀ d ∈ ds, d.Name ≠ "" →
            q.PodRef.Namespace ++ "_" ++ q.PodRef.Name ++ "_" ++ d.Name
              = p.PodRef.Namespace ++ "_" ++ p.PodRef.Name ++ "_" ++ c.Name →
            d.Name = c.Name) →
        FromRawGroupsEntityIDGenerator "containerName" "container"
          (p.PodRef.Namespace ++ "_" ++ p.PodRef.Name ++ "_" ++ c.Name) (GroupStatsSummary s).1
          = (c.Name, none) := by
  constructor
  · have hmem : ∃ w ∈ allContainerWrites ps, w.1 = containerKey p c :=
      ⟨containerEntry (fetchPodStats p).1 c,
        (mem_allContainerWrites ps _).2 ⟨p, hp, ⟨h1, h2⟩, cs, hcs, c, hc, h3, rfl⟩,
        containerEntry_key p c h1 h2 h3⟩
    obtain ⟨w, _, _, hv⟩ :=
      applyWrites_of_mem (allContainerWrites ps) GoMap.empty (containerKey p c) hmem
    exact ⟨_, _, store_container s ps hps, hv⟩
  · intro before after cs1 cs2 hsplit hcsplit hlater1 hlater2
    have he := (fetchPodStats_err p).2 ⟨h1, h2⟩
    have hce := (fetchContainerStats_err c).2 h3
    have hcs2 : p.Containers = some (cs1 ++ c :: cs2) := by rw [hcs, hcsplit]
    have hw : allContainerWrites ps
        = (allContainerWrites before ++ containerWrites (fetchPodStats p).1 cs1)
          ++ containerEntry (fetchPodStats p).1 c
            :: (containerWrites (fetchPodStats p).1 cs2 ++ allContainerWrites after) := by
      rw [hsplit, allContainerWrites_append]
      simp [allContainerWrites, he, hcs2, containerWrites_append, containerWrites, hce]
    have hkey := containerEntry_key p c h1 h2 h3
    obtain ⟨m, hm, hname⟩ := applyWrites_split GoMap.empty
      (allContainerWrites before ++ containerWrites (fetchPodStats p).1 cs1)
      (containerWrites (fetchPodStats p).1 cs2 ++ allContainerWrites after)
      (containerEntry (fetchPodStats p).1 c)
      (fun e => e "containerName" = some (Value.str c.Name))
      (containerEntry_containerName _ c h3)
      (by
        intro x hx hk
        rw [hkey] at hk
        rcases List.mem_append.1 hx with hx1 | hx2
        · obtain ⟨d, hd, hdn, hxe⟩ := (mem_containerWrites _ cs2 x).1 hx1
          subst hxe
          rw [containerEntry_key p d h1 h2 hdn] at hk
          have hdc : d.Name = c.Name := hlater1 d hd hdn hk
          show (containerEntry (fetchPodStats p).1 d).2 "containerName"
            = some (Value.str c.Name)
          rw [containerEntry_containerName _ d hdn, hdc]
        · obtain ⟨q, hq, hqv, ds, hds, d, hd, hdn, hxe⟩ :=
            (mem_allContainerWrites after x).1 hx2
          subst hxe
          rw [containerEntry_key q d hqv.1 hqv.2 hdn] at hk
          have hdc : d.Name = c.Name := hlater2 q hq hqv.1 hqv.2 ds hds d hd hdn hk
          show (containerEntry (fetchPodStats q).1 d).2 "containerName"
            = some (Value.str c.Name)
          rw [containerEntry_containerName _ d hdn, hdc])
    rw [← hw, hkey] at hm
    have hfield : (GroupStatsSummary s).1.field "container" (containerKey p c) "containerName"
        = some (Value.str c.Name) := by
      simp only [RawGroups.field, store_container s ps hps]
      show (match applyWrites GoMap.empty (allContainerWrites ps) (containerKey p c) with
        | none => none
        | some en => en "containerName") = some (Value.str c.Name)
      rw [hm]
      exact hname
    have hkey2 : p.PodRef.Namespace ++ "_" ++ p.PodRef.Name ++ "_" ++ c.Name
        = containerKey p c := rfl
    rw [hkey2]
    simp only [FromRawGroupsEntityIDGenerator, hfield]

/-- Witness of C3 as amended, on the two containers of `summaryContainerClash`,
which share the raw key "a_b_c_d": the container "d" of the first pod has its
key in the store, and for the container "c_d" of the second pod, which comes
last, the generator returns its name "c_d". -/
theorem container_key_recovers_name_witness :
    (∃ grp m, (GroupStatsSummary summaryContainerClash).1 "container" = some grp
        ∧ grp ("a" ++ "_" ++ "b_c" ++ "_" ++ "d") = some m)
    ∧ FromRawGroupsEntityIDGenerator "containerName" "container"
        ("a" ++ "_" ++ "b" ++ "_" ++ "c_d") (GroupStatsSummary summaryContainerClash).1
        = ("c_d", none) :=
  ⟨(container_key_recovers_name summaryContainerClash
      [containerClashPod, containerClashSecondPod] containerClashPod [containerClashFirst]
      containerClashFirst rfl (List.mem_cons_self _ _) (by decide) (by decide) rfl
      (List.mem_singleton.2 rfl) (by decide)).1,
    (container_key_recovers_name summaryContainerClash
      [containerClashPod, containerClashSecondPod] containerClashSecondPod
      [containerClashSecond] containerClashSecond rfl
      (List.mem_cons_of_mem _ (List.mem_singleton.2 rfl)) (by decide) (by decide) rfl
      (List.mem_singleton.2 rfl) (by decide)).2
      [containerClashPod] [] [] [] rfl rfl
      (fun d hd => absurd hd (List.not_mem_nil d))
      (fun q hq => absurd hq (List.not_mem_nil q))⟩

end Metric
